import Mathlib

/-!
Shallow embedding of the AI-Trading decision and backtest core
(`backend/ai/rsi_calculator.py`, `macd_calculator.py`, `ma_calculator.py`,
`sr_detector.py`, `genius_ai.py`, `risk_manager.py`, `backtester.py`).

Python floats are modelled by `ℚ`; `round(x, d)` is modelled as decimal
half-up rounding (the resulting proofs rely only on the error bound
`|roundTo d x - x| ≤ 1/(2·10^d)`, which also holds for Python's
round-half-even).  Python `None` becomes `Option.none`, exceptions become
`Except.error`, and dict rows become structures.
-/

namespace AITrading

/-- Python `str.upper()` (ASCII inputs only here), written via `List.map`
so that it reduces definitionally. -/
def pyUpper (s : String) : String := ⟨s.data.map Char.toUpper⟩

/-- Python `round(x, d)` modelled over `ℚ` (half-up decimal rounding). -/
def roundTo (d : ℕ) (x : ℚ) : ℚ := (⌊x * (10 ^ d : ℚ) + 1 / 2⌋ : ℚ) / (10 ^ d : ℚ)

/-- Python `np.mean` / `sum(l)/len(l)` over a list of rationals.
In `ℚ` division by zero yields 0; every call site in the source guards
the list to be nonempty. -/
def mean (l : List ℚ) : ℚ := l.sum / (l.length : ℚ)

/-- Population variance, i.e. the square of `np.std`. -/
def variance (l : List ℚ) : ℚ :=
  let mu := mean l
  (l.map (fun x => (x - mu) ^ 2)).sum / (l.length : ℚ)

/-- Python `np.diff`: successive differences of a list. -/
def diffs : List ℚ → List ℚ
  | [] => []
  | [_] => []
  | a :: b :: t => (b - a) :: diffs (b :: t)

/-- Python slice `l[-n:]`. -/
def lastN (n : ℕ) (l : List α) : List α := l.drop (l.length - n)

/-- Python `l[i]` on a rational list (all source accesses are in range). -/
def getQ (l : List ℚ) (i : ℕ) : ℚ := l.getD i 0

/-- One candle row `{time, open, high, low, close, volume}` (time in unix
seconds).  `volume` is unused by the embedded components. -/
structure Candle where
  time : ℤ
  openP : ℚ
  high : ℚ
  low : ℚ
  close : ℚ
  volume : ℚ
deriving DecidableEq, Inhabited

/-! ## rsi_calculator.py -/

namespace RSICalculator

/-- RSI from gain/loss running averages (`rsi_calculator.py` lines 36-40,
52-56): 100 when the average loss is zero. -/
def rsiOf (avg_gain avg_loss : ℚ) : ℚ :=
  if avg_loss = 0 then 100
  else
    let rs := avg_gain / avg_loss
    100 - 100 / (1 + rs)

/-- Wilder smoothing loop (`rsi_calculator.py` lines 45-58): consumes the
remaining (gain, loss) pairs, emitting one RSI per step. -/
def wilderLoop (period : ℕ) (avg_gain avg_loss : ℚ) : List (ℚ × ℚ) → List ℚ
  | [] => []
  | (g, l) :: rest =>
    let ag := (avg_gain * ((period : ℚ) - 1) + g) / (period : ℚ)
    let al := (avg_loss * ((period : ℚ) - 1) + l) / (period : ℚ)
    rsiOf ag al :: wilderLoop period ag al rest

/-- `RSICalculator.calculate` with the default period 14.  A window shorter
than `period + 1` candles returns a zero-filled list of the same length. -/
def calculate (candles : List Candle) : List ℚ :=
  let period : ℕ := 14
  if candles.length < period + 1 then List.replicate candles.length 0
  else
    let closes := candles.map (fun c => c.close)
    let changes := diffs closes
    let gains := changes.map (fun c => if c > 0 then c else 0)
    let losses := changes.map (fun c => if c < 0 then -c else 0)
    let avg_gain := mean (gains.take period)
    let avg_loss := mean (losses.take period)
    -- first RSI, then the loop over gains[period-1..], losses[period-1..]
    let rsi_values :=
      rsiOf avg_gain avg_loss ::
        wilderLoop period avg_gain avg_loss
          ((gains.drop (period - 1)).zip (losses.drop (period - 1)))
    List.replicate (candles.length - rsi_values.length) 0 ++ rsi_values

/-- Divergence side returned by `is_divergence`.  The source returns the
strings BULLISH / BEARISH, or `False` / `None` (both modelled as `none`)
when no divergence is found. -/
inductive DivSide where
  | bullish
  | bearish
deriving DecidableEq

/-- Local RSI extremum rows collected by `is_divergence` (index, rsi, price). -/
structure DivPoint where
  idx : ℕ
  rsi : ℚ
  price : ℚ
deriving DecidableEq, Inhabited

/-- `RSICalculator.is_divergence(candles, threshold)`. -/
def is_divergence (candles : List Candle) (threshold : ℚ) : Option DivSide :=
  if candles.length < 20 then none
  else
    let recent_candles := lastN 10 candles
    let recent_rsi := calculate recent_candles
    let idxOK := fun i => 2 ≤ i ∧ i + 2 < recent_rsi.length
    let highs := (List.range recent_rsi.length).filterMap (fun i =>
      if idxOK i ∧
          getQ recent_rsi i > getQ recent_rsi (i - 1) ∧
          getQ recent_rsi i > getQ recent_rsi (i - 2) ∧
          getQ recent_rsi i > getQ recent_rsi (i + 1) ∧
          getQ recent_rsi i > getQ recent_rsi (i + 2) then
        some ⟨i, getQ recent_rsi i, ((recent_candles.getD i default).high : ℚ)⟩
      else (none : Option DivPoint))
    let lows := (List.range recent_rsi.length).filterMap (fun i =>
      if idxOK i ∧
          getQ recent_rsi i < getQ recent_rsi (i - 1) ∧
          getQ recent_rsi i < getQ recent_rsi (i - 2) ∧
          getQ recent_rsi i < getQ recent_rsi (i + 1) ∧
          getQ recent_rsi i < getQ recent_rsi (i + 2) then
        some ⟨i, getQ recent_rsi i, ((recent_candles.getD i default).low : ℚ)⟩
      else (none : Option DivPoint))
    if 2 ≤ highs.length ∧ 2 ≤ lows.length then
      let last_high := highs.getD (highs.length - 1) default
      let prev_high := highs.getD (highs.length - 2) default
      if last_high.price > prev_high.price + threshold ∧
          last_high.rsi < prev_high.rsi - threshold then
        some DivSide.bearish
      else
        let last_low := lows.getD (lows.length - 1) default
        let prev_low := lows.getD (lows.length - 2) default
        if last_low.price < prev_low.price - threshold ∧
            last_low.rsi > prev_low.rsi + threshold then
          some DivSide.bullish
        else none
    else none

end RSICalculator

/-! ## macd_calculator.py -/

namespace MACDCalculator

/-- EMA recurrence (`for i in range(period, len(data))`). -/
def emaRec (m : ℚ) (prev : ℚ) : List ℚ → List ℚ
  | [] => []
  | d :: t =>
    let e := (d - prev) * m + prev
    e :: emaRec m e t

/-- `MACDCalculator._calculate_ema`: `None`-padded EMA series (the first
`period - 1` entries are `None`, like the Python list). -/
def emaOpt (data : List ℚ) (period : ℕ) : List (Option ℚ) :=
  if data.length < period then List.replicate data.length none
  else
    let m : ℚ := 2 / ((period : ℚ) + 1)
    let sma := (data.take period).sum / (period : ℚ)
    List.replicate (period - 1) none ++
      some sma :: (emaRec m sma (data.drop period)).map some

/-- Result dict of `MACDCalculator.calculate`.  The signal line keeps its
`None` prefix entries. -/
structure MACDData where
  macd : List ℚ
  signal : List (Option ℚ)
  histogram : List ℚ
deriving DecidableEq

/-- `MACDCalculator.calculate` with defaults fast=12, slow=26, signal=9.
A window shorter than `slow + 1` returns zero-filled series. -/
def calculate (candles : List Candle) : MACDData :=
  if candles.length < 26 + 1 then
    { macd := List.replicate candles.length 0
      signal := (List.replicate candles.length 0).map some
      histogram := List.replicate candles.length 0 }
  else
    let closes := candles.map (fun c => c.close)
    let ema_fast := emaOpt closes 12
    let ema_slow := emaOpt closes 26
    let macd_values := ema_fast.zipWith (fun f s =>
      match f, s with
      | some a, some b => a - b
      | _, _ => 0) ema_slow
    let signal_values := emaOpt macd_values 9
    let histogram := macd_values.zipWith (fun mv sv =>
      match sv with
      | some s => mv - s
      | none => 0) signal_values
    -- pad_length = len(candles) - len(macd_values); it is 0 here but the
    -- source pads anyway
    let pad := candles.length - macd_values.length
    { macd := List.replicate pad 0 ++ macd_values
      signal := (List.replicate pad 0).map some ++ signal_values
      histogram := List.replicate pad 0 ++ histogram }

end MACDCalculator

/-! ## ma_calculator.py -/

namespace MACalculator

/-- `MACalculator._calculate_ema`: zero-padded EMA series. -/
def emaZero (data : List ℚ) (period : ℕ) : List ℚ :=
  if data.length < period then List.replicate data.length 0
  else
    let m : ℚ := 2 / ((period : ℚ) + 1)
    let sma := (data.take period).sum / (period : ℚ)
    List.replicate (period - 1) 0 ++ sma :: MACDCalculator.emaRec m sma (data.drop period)

/-- Result dict of `MACalculator.calculate` (defaults 9 / 21 / 50).
`pad_length` is 0 since `_calculate_ema` preserves length. -/
structure MAData where
  ema_9 : List ℚ
  ema_21 : List ℚ
  ema_50 : List ℚ
deriving DecidableEq

/-- `MACalculator.calculate`. -/
def calculate (candles : List Candle) : MAData :=
  let closes := candles.map (fun c => c.close)
  { ema_9 := emaZero closes 9
    ema_21 := emaZero closes 21
    ema_50 := emaZero closes 50 }

end MACalculator

/-! ## sr_detector.py -/

namespace SRDetector

/-- Support / resistance result of `SRDetector.detect`. -/
structure SRLevels where
  resistance : List ℚ
  support : List ℚ
deriving DecidableEq

/-- Test `a > 0.5 * np.std(prices)` without leaving `ℚ`:
for `v = variance prices ≥ 0` the threshold is `√v / 2 ≥ 0`, so the
comparison is equivalent to `0 < a ∧ v < 4 a²`. -/
def gtHalfStd (a v : ℚ) : Prop := 0 < a ∧ v < 4 * a ^ 2

instance (a v : ℚ) : Decidable (gtHalfStd a v) := by unfold gtHalfStd; infer_instance

/-- `SRDetector._find_levels` for one direction. -/
def find_levels (prices : List ℚ) (isResistance : Bool) : List ℚ :=
  let v := variance prices
  let levels := (List.range prices.length).filterMap (fun i =>
    if 1 ≤ i ∧ i + 1 < prices.length then
      let prev := getQ prices (i - 1)
      let curr := getQ prices i
      let next := getQ prices (i + 1)
      if isResistance then
        if curr > prev ∧ curr > next ∧ gtHalfStd (curr - prev) v then some curr else none
      else
        if curr < prev ∧ curr < next ∧ gtHalfStd (prev - curr) v then some curr else none
    else none)
  let sorted :=
    if isResistance then levels.insertionSort (fun a b => b ≤ a)
    else levels.insertionSort (fun a b => a ≤ b)
  sorted.take 5

/-- `SRDetector.detect` (levels_count 5, refresh_rate 50): below 100 candles
both level lists are empty. -/
def detect (candles : List Candle) : SRLevels :=
  if candles.length < 100 then { resistance := [], support := [] }
  else
    let recent_candles := lastN 50 candles
    let highs := recent_candles.map (fun c => c.high)
    let lows := recent_candles.map (fun c => c.low)
    { resistance := find_levels highs true
      support := find_levels lows false }

end SRDetector

/-! ## genius_ai.py — technical analysis and composite scorer

The source accumulates free-text reasons (f-strings).  Claims never
concern the rendered text, so reasons are embedded as a closed inductive
carrying the same discriminating data; count and order are preserved. -/

inductive Reason where
  | rsiOversold (v : ℚ)
  | rsiOverbought (v : ℚ)
  | macdBullCross
  | macdBearCross
  | emaBullish
  | emaBearish
  | divBullish
  | divBearish
  | stochBullCross (k : ℚ)
  | stochBearCross (k : ℚ)
  | bbBelowLower
  | bbAboveUpper
  | bbSqueeze
  | adxBullish (v : ℚ)
  | adxBearish (v : ℚ)
  | mtfBullish (a : ℚ)
  | mtfBearish (a : ℚ)
  | patternHit (name : String) (strength : ℚ)
  | nearSupport
  | nearResistance
  | sessionHigh
  | sessionLow
  | smc (tag : String)
  | vol (tag : String)
deriving DecidableEq

namespace GeniusAI

/-- Row `tech["rsi"]` built by `_technical_analysis`. -/
structure RsiView where
  value : ℚ
  status : String
deriving DecidableEq

/-- Row `tech["macd"]`. -/
structure MacdView where
  histogram : ℚ
  status : String
  crossover : String
deriving DecidableEq

/-- Row `tech["ema"]`.  Note: this dict has no `current_price` key; the
candle close lives at the top level of the tech dict. -/
structure EmaView where
  trend : String
  price_position : String
  ema9 : ℚ
  ema21 : ℚ
  ema50 : ℚ
deriving DecidableEq

/-- Result dict of `GeniusAI._technical_analysis`. -/
structure TechAnalysis where
  rsi : RsiView
  macd : MacdView
  ema : EmaView
  divergence : Option RSICalculator.DivSide
  support_resistance : SRDetector.SRLevels
  current_price : ℚ
deriving DecidableEq

/-- `GeniusAI._technical_analysis`. -/
def technicalAnalysis (candles : List Candle) : TechAnalysis :=
  let rsi_values := RSICalculator.calculate candles
  let macd_data := MACDCalculator.calculate candles
  let ma_data := MACalculator.calculate candles
  let sr_levels := SRDetector.detect candles
  let current_price := ((candles.getLast?).map (fun c => c.close)).getD 0
  -- RSI analysis (`rsi_values[-1] if rsi_values else 50`)
  let rsi := (rsi_values.getLast?).getD 50
  let rsi_status :=
    if rsi < 30 then "OVERSOLD"
    else if rsi > 70 then "OVERBOUGHT"
    else if rsi < 40 then "BEARISH"
    else if rsi > 60 then "BULLISH"
    else "NEUTRAL"
  -- MACD analysis; a trailing `None` signal entry is unreachable for the
  -- windows that make `macd_data["signal"]` nonempty, `.getD 0` mirrors it
  let macd := (macd_data.macd.getLast?).getD 0
  let signal_line := ((macd_data.signal.getLast?).getD (some 0)).getD 0
  let histogram := (macd_data.histogram.getLast?).getD 0
  let macd_status := if histogram > 0 then "BULLISH" else "BEARISH"
  let hist_prev := getQ macd_data.histogram (macd_data.histogram.length - 2)
  let bull_cross :=
    macd > signal_line ∧ 1 < macd_data.histogram.length ∧ hist_prev < 0
  let bear_cross :=
    macd < signal_line ∧ 1 < macd_data.histogram.length ∧ hist_prev > 0
  let macd_crossover :=
    if bull_cross then "BULLISH_CROSS"
    else if bear_cross then "BEARISH_CROSS"
    else "NONE"
  -- EMA analysis
  let ema9 := (ma_data.ema_9.getLast?).getD current_price
  let ema21 := (ma_data.ema_21.getLast?).getD current_price
  let ema50 := (ma_data.ema_50.getLast?).getD current_price
  let ema_bullish := ema9 > ema21 ∧ ema21 > ema50
  let ema_bearish := ema9 < ema21 ∧ ema21 < ema50
  let ema_trend :=
    if ema_bullish then "BULLISH" else if ema_bearish then "BEARISH" else "NEUTRAL"
  let price_vs_ema := if current_price > ema21 then "ABOVE" else "BELOW"
  let divergence := RSICalculator.is_divergence (lastN 50 candles) (1 / 20)
  { rsi := { value := roundTo 2 rsi, status := rsi_status }
    macd := { histogram := roundTo 6 histogram, status := macd_status, crossover := macd_crossover }
    ema := { trend := ema_trend, price_position := price_vs_ema
             ema9 := roundTo 5 ema9, ema21 := roundTo 5 ema21, ema50 := roundTo 5 ema50 }
    divergence := divergence
    support_resistance := sr_levels
    current_price := current_price }

/-- One detected pattern row, as consumed by `analyze` / `_calculate_signal`. -/
structure PatternItem where
  name : String
  ptype : String
  strength : ℚ
  description : String
deriving DecidableEq

/-- Result of `pattern_recognition.detect_all_patterns` (the parts read
downstream). -/
structure PatternsResult where
  bullish : List PatternItem
  bearish : List PatternItem
deriving DecidableEq

/-- Flattened `result["analysis"]["patterns"]` view built in `analyze`. -/
structure PatternsView where
  bullish : List PatternItem
  bearish : List PatternItem
  total_bullish_strength : ℚ
  total_bearish_strength : ℚ
deriving DecidableEq

/-- Flattened `result["analysis"]["multi_timeframe"]` view: `analyze` lifts
`mtf["confluence"]` fields to the top level (only these two are read by
`_calculate_signal`, via its confluence-or-top-level fallback). -/
structure MtfView where
  trend_direction : String
  alignment_score : ℚ
deriving DecidableEq

/-- Session info from `mtf_analyzer.get_best_entry_time` (only `quality`
is read downstream). -/
structure SessionInfo where
  quality : String
deriving DecidableEq

/-- `adv["stochastic"]` row. -/
structure StochView where
  crossover : String
  status : String
  k_value : ℚ
deriving DecidableEq

/-- `adv["bollinger_bands"]` row. -/
structure BBView where
  position : String
  squeeze : Bool
deriving DecidableEq

/-- `adv["adx"]` row. -/
structure AdxView where
  adx : ℚ
  direction : String
deriving DecidableEq

/-- Result dict of `calculate_advanced_indicators`; on an extractor
exception `analyze` substitutes the error dict whose three rows are
`None` (`emptyAdv`). -/
structure AdvIndicators where
  stochastic : Option StochView
  bollinger_bands : Option BBView
  adx : Option AdxView
deriving DecidableEq

/-- The substituted advanced-indicator error dict (all rows `None`); being
a nonempty dict it is truthy, so `_calculate_signal` still extends
`tech_max` to 145 for it. -/
def emptyAdv : AdvIndicators := { stochastic := none, bollinger_bands := none, adx := none }

/-- Category score row `{bullish, bearish, reasons}` produced by the
smart-money and volume analyzers. -/
structure ScoreRow where
  bullish : ℚ
  bearish : ℚ
  reasons : List Reason
deriving DecidableEq

/-- `smart_money.analyze` result (only `score` is read downstream). -/
structure SmcResult where
  score : Option ScoreRow
deriving DecidableEq

/-- `volume_analyzer.analyze` result (only `score` is read downstream). -/
structure VolResult where
  score : Option ScoreRow
deriving DecidableEq

/-- Per-category breakdown of the emitted signal. -/
structure Breakdown where
  mtf : ℚ
  technical : ℚ
  smart_money : ℚ
  patterns : ℚ
  volume : ℚ
  sr_proximity : ℚ
  session_quality : ℚ
deriving DecidableEq

/-- The emitted composite signal. -/
structure Signal where
  direction : String
  confidence : ℚ
  bullish_score : ℚ
  bearish_score : ℚ
  score_breakdown : Breakdown
  reasons : List Reason
deriving DecidableEq

/-- Weighted composite score of `_calculate_signal` (weights of lines
557-582, then the session multiplier). -/
def weightedScore (mtfP techP smcP patP volP srP mult : ℚ) : ℚ :=
  (mtfP * (25 / 100) + techP * (20 / 100) + smcP * (15 / 100) +
      patP * (15 / 100) + volP * (10 / 100) + srP * (10 / 100)) * mult

/-- Final block of `_calculate_signal` (lines 557-619): threshold test,
confidence cap and result assembly, taken over the per-category
percentages and the session multiplier. -/
def compositeDecision (reasons : List Reason)
    (mtf_bull_pct mtf_bear_pct tech_bull_pct tech_bear_pct smc_bull_pct smc_bear_pct
      pat_bull_pct pat_bear_pct vol_bull_pct vol_bear_pct sr_bull_pct sr_bear_pct
      session_multiplier : ℚ) : Option Signal :=
  let bullish_score :=
    weightedScore mtf_bull_pct tech_bull_pct smc_bull_pct pat_bull_pct
      vol_bull_pct sr_bull_pct session_multiplier
  let bearish_score :=
    weightedScore mtf_bear_pct tech_bear_pct smc_bear_pct pat_bear_pct
      vol_bear_pct sr_bear_pct session_multiplier
  let min_threshold : ℚ := 45
  let min_diff : ℚ := 10
  let score_diff := |bullish_score - bearish_score|
  if bullish_score > bearish_score ∧ bullish_score ≥ min_threshold ∧ score_diff ≥ min_diff then
    some
      { direction := "BUY"
        confidence := roundTo 1 (min 95 bullish_score)
        bullish_score := roundTo 1 bullish_score
        bearish_score := roundTo 1 bearish_score
        score_breakdown :=
          { mtf := roundTo 1 mtf_bull_pct, technical := roundTo 1 tech_bull_pct
            smart_money := roundTo 1 smc_bull_pct, patterns := roundTo 1 pat_bull_pct
            volume := roundTo 1 vol_bull_pct, sr_proximity := roundTo 1 sr_bull_pct
            session_quality := roundTo 0 (session_multiplier * 100) }
        reasons := reasons.take 8 }
  else if bearish_score > bullish_score ∧ bearish_score ≥ min_threshold ∧ score_diff ≥ min_diff then
    some
      { direction := "SELL"
        confidence := roundTo 1 (min 95 bearish_score)
        bullish_score := roundTo 1 bullish_score
        bearish_score := roundTo 1 bearish_score
        score_breakdown :=
          { mtf := roundTo 1 mtf_bear_pct, technical := roundTo 1 tech_bear_pct
            smart_money := roundTo 1 smc_bear_pct, patterns := roundTo 1 pat_bear_pct
            volume := roundTo 1 vol_bear_pct, sr_proximity := roundTo 1 sr_bear_pct
            session_quality := roundTo 0 (session_multiplier * 100) }
        reasons := reasons.take 8 }
  else none

/-- Category 1 of `_calculate_signal` (technical indicators, including the
advanced-indicator bonus): bullish percentage, bearish percentage and
reasons, in source order. -/
def techCategory (tech : TechAnalysis) (adv : Option AdvIndicators) :
    ℚ × ℚ × List Reason :=
  let rsiV := tech.rsi.value
  let s1 : ℚ × ℚ × List Reason :=
    if tech.rsi.status = "OVERSOLD" then (25, 0, [Reason.rsiOversold rsiV])
    else if tech.rsi.status = "OVERBOUGHT" then (0, 25, [Reason.rsiOverbought rsiV])
    else if rsiV > 55 then (8, 0, [])
    else if rsiV < 45 then (0, 8, [])
    else (0, 0, [])
  let s2 : ℚ × ℚ × List Reason :=
    if tech.macd.crossover = "BULLISH_CROSS" then (25, 0, [Reason.macdBullCross])
    else if tech.macd.crossover = "BEARISH_CROSS" then (0, 25, [Reason.macdBearCross])
    else if tech.macd.status = "BULLISH" then (12, 0, [])
    else (0, 12, [])
  let s3 : ℚ × ℚ × List Reason :=
    if tech.ema.trend = "BULLISH" then (25, 0, [Reason.emaBullish])
    else if tech.ema.trend = "BEARISH" then (0, 25, [Reason.emaBearish])
    else (0, 0, [])
  let s4 : ℚ × ℚ × List Reason :=
    match tech.divergence with
    | some RSICalculator.DivSide.bullish => (25, 0, [Reason.divBullish])
    | some RSICalculator.DivSide.bearish => (0, 25, [Reason.divBearish])
    | none => (0, 0, [])
  let tech_bull0 := s1.1 + s2.1 + s3.1 + s4.1
  let tech_bear0 := s1.2.1 + s2.2.1 + s3.2.1 + s4.2.1
  let baseReasons := s1.2.2 ++ s2.2.2 ++ s3.2.2 ++ s4.2.2
  -- advanced indicators bonus
  let advPart : ℚ × ℚ × List Reason × ℚ :=
    match adv with
    | none => (tech_bull0, tech_bear0, baseReasons, 100)
    | some a =>
      let p1 : ℚ × ℚ × List Reason :=
        match a.stochastic with
        | some st =>
          if st.crossover = "BULLISH_CROSS" then (15, 0, [Reason.stochBullCross st.k_value])
          else if st.crossover = "BEARISH_CROSS" then (0, 15, [Reason.stochBearCross st.k_value])
          else if st.status = "OVERSOLD" then (10, 0, [])
          else if st.status = "OVERBOUGHT" then (0, 10, [])
          else (0, 0, [])
        | none => (0, 0, [])
      let p2 : ℚ × ℚ × List Reason :=
        match a.bollinger_bands with
        | some bb =>
          if bb.position = "BELOW_LOWER" then (15, 0, [Reason.bbBelowLower])
          else if bb.position = "ABOVE_UPPER" then (0, 15, [Reason.bbAboveUpper])
          else if bb.squeeze then (0, 0, [Reason.bbSqueeze])
          else (0, 0, [])
        | none => (0, 0, [])
      let bull1 := tech_bull0 + p1.1 + p2.1
      let bear1 := tech_bear0 + p1.2.1 + p2.2.1
      let rs1 := baseReasons ++ p1.2.2 ++ p2.2.2
      -- ADX filter: strong trend adds points, flat trend (`adx < 15`)
      -- scales both sides by int(x * 0.7)
      let adxPart : ℚ × ℚ × List Reason :=
        match a.adx with
        | some d =>
          if d.adx > 25 then
            if d.direction = "BULLISH" then (bull1 + 15, bear1, rs1 ++ [Reason.adxBullish d.adx])
            else if d.direction = "BEARISH" then (bull1, bear1 + 15, rs1 ++ [Reason.adxBearish d.adx])
            else (bull1, bear1, rs1)
          else if d.adx < 15 then
            (((⌊bull1 * (7 / 10)⌋ : ℤ) : ℚ), ((⌊bear1 * (7 / 10)⌋ : ℤ) : ℚ), rs1)
          else (bull1, bear1, rs1)
        | none => (bull1, bear1, rs1)
      (adxPart.1, adxPart.2.1, adxPart.2.2, 145)
  let tech_max := advPart.2.2.2
  (min 100 (advPart.1 / tech_max * 100), min 100 (advPart.2.1 / tech_max * 100),
    advPart.2.2.1)

/-- Category 2 of `_calculate_signal` (multi-timeframe confluence; the
`mtf.get("confluence")` fallback resolves to the flattened top-level
fields). -/
def mtfCategory (mtf : Option MtfView) : ℚ × ℚ × List Reason :=
  match mtf with
    | none => (0, 0, [])
    | some m =>
      if m.trend_direction = "BULLISH" then
        (min 100 m.alignment_score, 0, [Reason.mtfBullish m.alignment_score])
      else if m.trend_direction = "BEARISH" then
        (0, min 100 m.alignment_score, [Reason.mtfBearish m.alignment_score])
      else if m.trend_direction = "MIXED" then (30, 30, [])
      else (0, 0, [])

/-- Category 3 of `_calculate_signal` (pattern recognition). -/
def patCategory (patterns : Option PatternsView) : ℚ × ℚ × List Reason :=
  match patterns with
    | none => (0, 0, [])
    | some p =>
      let bl : ℚ × List Reason :=
        if p.bullish ≠ [] then
          let total := (p.bullish.map (fun q => q.strength)).sum
          (min 100 (total / (max (p.bullish.length : ℚ) 1)),
            (p.bullish.take 2).map (fun q => Reason.patternHit q.name q.strength))
        else (0, [])
      let br : ℚ × List Reason :=
        if p.bearish ≠ [] then
          let total := (p.bearish.map (fun q => q.strength)).sum
          (min 100 (total / (max (p.bearish.length : ℚ) 1)),
            (p.bearish.take 2).map (fun q => Reason.patternHit q.name q.strength))
        else (0, [])
      (bl.1, br.1, bl.2 ++ br.2)

/-- Category 4 of `_calculate_signal` (support/resistance proximity).  The
source reads `tech["ema"]["current_price"]`, a key the ema dict never
has, so `current_price` is the `.get` default 0 and the proximity branch
is dead: the percentages stay at the neutral 50/50 defaults. -/
def srCategory (tech : TechAnalysis) : ℚ × ℚ × List Reason :=
  let sr_current_price : ℚ := 0
  if sr_current_price > 0 then
      let sup := tech.support_resistance.support
      let res := tech.support_resistance.resistance
      let bl : ℚ × List Reason :=
        match sup with
        | [] => (50, [])
        | s0 :: _ =>
          let nearest := sup.foldl
            (fun best x => if |x - sr_current_price| < |best - sr_current_price| then x else best) s0
          if |sr_current_price - nearest| / sr_current_price * 100 < 3 / 10 then
            (85, [Reason.nearSupport])
          else (50, [])
      let br : ℚ × List Reason :=
        match res with
        | [] => (50, [])
        | r0 :: _ =>
          let nearest := res.foldl
            (fun best x => if |x - sr_current_price| < |best - sr_current_price| then x else best) r0
          if |nearest - sr_current_price| / sr_current_price * 100 < 3 / 10 then
            (85, [Reason.nearResistance])
          else (50, [])
      (bl.1, br.1, bl.2 ++ br.2)
    else (50, 50, [])

/-- Category 5 of `_calculate_signal` (session quality multiplier and its
reasons). -/
def sessionCategory (session : Option SessionInfo) : ℚ × List Reason :=
  match session with
  | none => (1, [])
  | some s =>
    if s.quality = "HIGH" then (115 / 100, [Reason.sessionHigh])
    else if s.quality = "LOW" then (7 / 10, [Reason.sessionLow])
    else (1, [])

/-- Category 6 of `_calculate_signal` (smart money concepts; the
`if smc and smc.get("score")` guard). -/
def smcCategory (smc : Option SmcResult) : ℚ × ℚ × List Reason :=
  match smc with
  | some r =>
    match r.score with
    | some sc => (sc.bullish, sc.bearish, sc.reasons.take 2)
    | none => (0, 0, [])
  | none => (0, 0, [])

/-- Category 7 of `_calculate_signal` (volume analysis; neutral 50/50
default when absent). -/
def volCategory (vol : Option VolResult) : ℚ × ℚ × List Reason :=
  match vol with
  | some r =>
    match r.score with
    | some sc => (sc.bullish, sc.bearish, sc.reasons.take 1)
    | none => (50, 50, [])
  | none => (50, 50, [])

/-- `GeniusAI._calculate_signal`: the seven category blocks in source
order, then the weighted composite decision. -/
def calculateSignal (tech : TechAnalysis) (patterns : Option PatternsView)
    (mtf : Option MtfView) (session : Option SessionInfo)
    (adv : Option AdvIndicators) (smc : Option SmcResult) (vol : Option VolResult) :
    Option Signal :=
  let techPart := techCategory tech adv
  let mtfPart := mtfCategory mtf
  let patPart := patCategory patterns
  let srPart := srCategory tech
  let sessPart := sessionCategory session
  let smcPart := smcCategory smc
  let volPart := volCategory vol
  let reasons :=
    techPart.2.2 ++ mtfPart.2.2 ++ patPart.2.2 ++ srPart.2.2 ++ sessPart.2 ++
      smcPart.2.2 ++ volPart.2.2
  compositeDecision reasons
    mtfPart.1 mtfPart.2.1 techPart.1 techPart.2.1 smcPart.1 smcPart.2.1
    patPart.1 patPart.2.1 volPart.1 volPart.2.1 srPart.1 srPart.2.1 sessPart.1

end GeniusAI

/-! ## risk_manager.py

The symbol-info dict consumed here is built by
`connector._symbol_info_to_dict`, whose keys are `point`,
`trade_tick_size`, `trade_tick_value`, `trade_contract_size`,
`volume_min/max/step`, ...  The `risk_manager` lookups
`tick_value`, `tick_size`, `contract_size`, `lot_step`, `lot_min`,
`lot_max` therefore always take their `.get` defaults
(1, point, 100000, 0.01, 0.01, 100), which the embedding inlines with a
comment at each site. -/

/-- Symbol metadata as produced by `connector._symbol_info_to_dict`. -/
structure SymbolInfo where
  point : ℚ
  trade_tick_size : ℚ
  trade_tick_value : ℚ
  trade_contract_size : ℚ
  volume_min : ℚ
  volume_max : ℚ
  volume_step : ℚ
deriving DecidableEq

/-- Account data from `connector.get_account_info` (fields read by the
risk manager). -/
structure AccountInfo where
  balance : ℚ
  equity : ℚ
  leverage : ℚ
deriving DecidableEq

/-- Symbol class distinguished by the substring tests on the symbol name
(`"JPY" in symbol`, `"XAU"/"XAG" in symbol`, index names, else major). -/
inductive SymbolClass where
  | jpy
  | metal
  | index
  | major
deriving DecidableEq

deriving instance DecidableEq for Except

namespace RiskManager

/-- One row of `RiskManager.RISK_LEVELS`. -/
structure RiskSettings where
  risk : ℚ
  rr_min : ℚ
  confidence_min : ℚ
deriving DecidableEq

/-- `RISK_LEVELS.get(level, RISK_LEVELS["moderate"])`. -/
def riskLevelSettings (level : String) : RiskSettings :=
  if level = "conservative" then { risk := 1 / 2, rr_min := 2, confidence_min := 80 }
  else if level = "moderate" then { risk := 1, rr_min := 3 / 2, confidence_min := 70 }
  else if level = "aggressive" then { risk := 2, rr_min := 1, confidence_min := 60 }
  else { risk := 1, rr_min := 3 / 2, confidence_min := 70 }

/-- The guard `risk_percentage is not None and risk_percentage > 0` of
`get_optimal_setup`. -/
def explicitRisk (rp : Option ℚ) : Option ℚ :=
  match rp with
  | some r => if r > 0 then some r else none
  | none => none

/-- Confidence multiplier of `get_optimal_setup` (lines 335-342). -/
def confMultiplier (confidence : ℚ) : ℚ :=
  if confidence ≥ 90 then 12 / 10
  else if confidence ≥ 80 then 1
  else if confidence ≥ 70 then 8 / 10
  else 1 / 2

/-- Effective risk percentage of `get_optimal_setup` (lines 325-344):
an explicit positive percentage is used unscaled, otherwise the level's
base risk is scaled by the confidence multiplier. -/
def effRiskPercent (rp : Option ℚ) (level : String) (confidence : ℚ) : ℚ :=
  match explicitRisk rp with
  | some r => r
  | none => (riskLevelSettings level).risk * confMultiplier confidence

/-- Minimum R:R used for the take profit: 1.5 in the explicit-percentage
branch, else the level's `rr_min`. -/
def minRR (rp : Option ℚ) (level : String) : ℚ :=
  match explicitRisk rp with
  | some _ => 3 / 2
  | none => (riskLevelSettings level).rr_min

/-- `pip_size` table of `get_optimal_setup` (lines 352-363). -/
def rmPipSize : SymbolClass → ℚ
  | .jpy => 1 / 100
  | .metal => 1 / 10
  | .index => 1
  | .major => 1 / 10000

/-- `default_sl_pips` table of `get_optimal_setup` (lines 352-363). -/
def rmDefaultSlPips : SymbolClass → ℚ
  | .jpy => 50
  | .metal => 300
  | .index => 100
  | .major => 30

/-- Python truthiness filter `support if (support and support < entry)`. -/
def validBelow (entry : ℚ) (lvl : Option ℚ) : Option ℚ :=
  match lvl with
  | some s => if s ≠ 0 ∧ s < entry then some s else none
  | none => none

/-- Python truthiness filter `resistance if (resistance and resistance > entry)`. -/
def validAbove (entry : ℚ) (lvl : Option ℚ) : Option ℚ :=
  match lvl with
  | some r => if r ≠ 0 ∧ r > entry then some r else none
  | none => none

/-- BUY stop loss (lines 366-380): below support with a 10-pip buffer,
else the default distance; re-validated to stay below entry. -/
def buySL (entry : ℚ) (support : Option ℚ) (pip dsl : ℚ) : ℚ :=
  let sl0 :=
    match validBelow entry support with
    | some vs => vs - pip * 10
    | none => entry - dsl * pip
  if sl0 ≥ entry then entry - dsl * pip else sl0

/-- SELL stop loss (lines 382-396). -/
def sellSL (entry : ℚ) (resistance : Option ℚ) (pip dsl : ℚ) : ℚ :=
  let sl0 :=
    match validAbove entry resistance with
    | some vr => vr + pip * 10
    | none => entry + dsl * pip
  if sl0 ≤ entry then entry + dsl * pip else sl0

/-- BUY take profit (lines 399-416): `risk × min_rr` above entry,
tightened to 5 pips under a resistance only when that keeps R:R ≥ 1. -/
def buyTP (entry sl : ℚ) (resistance : Option ℚ) (pip min_rr : ℚ) : ℚ :=
  let risk := |entry - sl|
  let tp0 := entry + risk * min_rr
  let tp1 :=
    match validAbove entry resistance with
    | some vr =>
      if vr < tp0 then
        let resistance_rr := if risk > 0 then (vr - entry) / risk else 0
        if resistance_rr ≥ 1 then vr - pip * 5 else tp0
      else tp0
    | none => tp0
  if tp1 ≤ entry then entry + risk * min_rr else tp1

/-- SELL take profit (lines 418-432). -/
def sellTP (entry sl : ℚ) (support : Option ℚ) (pip min_rr : ℚ) : ℚ :=
  let risk := |entry - sl|
  let tp0 := entry - risk * min_rr
  let tp1 :=
    match validBelow entry support with
    | some vs =>
      if vs > tp0 then
        let support_rr := if risk > 0 then (entry - vs) / risk else 0
        if support_rr ≥ 1 then vs + pip * 5 else tp0
      else tp0
    | none => tp0
  if tp1 ≥ entry then entry - risk * min_rr else tp1

/-- Result dict of `_calculate_position_size_with_capital`. -/
structure PosInfo where
  lot_size : ℚ
  risk_amount : ℚ
  risk_percent : ℚ
  entry_price : ℚ
  stop_loss : ℚ
  sl_distance_pips : ℚ
  sl_distance_points : ℚ
  margin_required : ℚ
  can_open : Bool
  risk_level : String
  account_balance : ℚ
  account_equity : ℚ
deriving DecidableEq

/-- `RiskManager._calculate_position_size_with_capital`.  Division by zero
(e.g. a zero balance) is total in `ℚ` where Python would raise; no claim
exercises those inputs. -/
def calcPositionSize (account : Option AccountInfo) (symbolInfo : Option SymbolInfo)
    (entry stop_loss : ℚ) (risk_percent : Option ℚ) (risk_level : String)
    (custom_balance : Option ℚ) : Except String PosInfo :=
  match account with
  | none => Except.error "Cannot get account info"
  | some acct =>
    match symbolInfo with
    | none => Except.error "Cannot get symbol info"
    | some si =>
      let balance :=
        match custom_balance with
        | some c => if c ≠ 0 ∧ c > 0 then c else acct.balance
        | none => acct.balance
      let equity := acct.equity
      let rp0 :=
        match risk_percent with
        | none => (riskLevelSettings risk_level).risk
        | some r => r
      let rp := min rp0 5
      let risk_amount := balance * (rp / 100)
      let sl_distance := |entry - stop_loss|
      let point := si.point
      let contract_size : ℚ := 100000  -- dict lacks "contract_size": default
      let tick_value : ℚ := 1          -- dict lacks "tick_value": default
      let tick_size := point           -- dict lacks "tick_size": default is `point`
      let pip_value_per_lot :=
        if tick_value ≠ 0 ∧ tick_size ≠ 0 then tick_value / tick_size * point
        else contract_size * point
      let sl_points := if point > 0 then sl_distance / point else 0
      let lot0 :=
        if sl_distance > 0 ∧ pip_value_per_lot > 0 ∧ sl_points > 0 then
          risk_amount / (sl_points * pip_value_per_lot)
        else 1 / 100
      let lot_step : ℚ := 1 / 100      -- dict lacks "lot_step": default
      let lot1 := ((⌊lot0 / lot_step⌋ : ℤ) : ℚ) * lot_step
      let min_lot : ℚ := 1 / 100       -- dict lacks "lot_min": default
      let max_lot : ℚ := 100           -- dict lacks "lot_max": default
      let lot2 := max min_lot (min lot1 max_lot)
      let lot := roundTo 2 lot2
      let actual_risk_amount := lot * sl_points * pip_value_per_lot
      let actual_risk_percent := actual_risk_amount / balance * 100
      let leverage := acct.leverage
      let margin_required := lot * contract_size * entry / leverage
      Except.ok
        { lot_size := lot
          risk_amount := roundTo 2 actual_risk_amount
          risk_percent := roundTo 2 actual_risk_percent
          entry_price := entry
          stop_loss := stop_loss
          sl_distance_pips := roundTo 1 (sl_distance / (point * 10))
          sl_distance_points := roundTo 1 sl_points
          margin_required := roundTo 2 margin_required
          can_open := decide (actual_risk_percent ≤ 5)
          risk_level := risk_level
          account_balance := balance
          account_equity := equity }

/-- Result dict of `calculate_risk_reward`.  The `risk == 0` early return
produces a short dict without pips/quality entries, modelled by `none`s. -/
structure RRInfo where
  ratio : ℚ
  risk_pips : Option ℚ
  reward_pips : Option ℚ
  is_fav : Bool
  quality : Option String
deriving DecidableEq

/-- `RiskManager.calculate_risk_reward`. -/
def calcRiskReward (entry stop_loss take_profit : ℚ) : RRInfo :=
  let risk := |entry - stop_loss|
  let reward := |take_profit - entry|
  if risk = 0 then
    { ratio := 0, risk_pips := none, reward_pips := none, is_fav := false, quality := none }
  else
    let r := reward / risk
    { ratio := roundTo 2 r
      risk_pips := some (roundTo 1 (risk * 10000))
      reward_pips := some (roundTo 1 (reward * 10000))
      is_fav := decide (r ≥ 3 / 2)
      quality := some
        (if r ≥ 3 then "EXCELLENT" else if r ≥ 2 then "GOOD"
          else if r ≥ 3 / 2 then "FAIR" else "POOR") }

/-- One row of `calculate_take_profit_levels`. -/
structure TPLevel where
  level : ℕ
  price : ℚ
  risk_reward : ℚ
  pips_from_entry : ℚ
deriving DecidableEq

/-- `RiskManager.calculate_take_profit_levels` with the default levels
`[1.0, 2.0, 3.0]`. -/
def calcTakeProfitLevels (entry stop_loss : ℚ) (direction : String) : List TPLevel :=
  let risk := |entry - stop_loss|
  ([(1, (1 : ℚ)), (2, 2), (3, 3)]).map (fun p =>
    let tp :=
      if pyUpper direction = "BUY" then entry + risk * p.2 else entry - risk * p.2
    { level := p.1, price := roundTo 5 tp, risk_reward := p.2
      pips_from_entry := roundTo 1 (risk * p.2 * 10000) })

/-- Warnings emitted by `_assess_trade_risk_with_capital` (the source
stores message strings; only the two kinds below can occur there). -/
inductive AssessWarning where
  | lowRR (ratio : ℚ)
  | highRisk (pct : ℚ)
deriving DecidableEq

/-- Result dict of `_assess_trade_risk_with_capital`. -/
structure AssessInfo where
  assessment : String
  risk_score : ℚ
  can_proceed : Bool
  lot_size : ℚ
  risk_reward : RRInfo
  position_details : Except String PosInfo
  warnings : List AssessWarning
deriving DecidableEq

/-- `RiskManager._assess_trade_risk_with_capital`.  A `None` lot size
makes it reuse the computed position size (`pos.get("lot_size", 0.01)`
yields the 0.01 default on the error dict). -/
def assessTradeRisk (account : Option AccountInfo) (symbolInfo : Option SymbolInfo)
    (entry stop_loss take_profit : ℚ) (lot_size : Option ℚ) (risk_percent : ℚ)
    (custom_balance : Option ℚ) : AssessInfo :=
  let rr := calcRiskReward entry stop_loss take_profit
  let pos := calcPositionSize account symbolInfo entry stop_loss (some risk_percent)
    "moderate" custom_balance
  let lot :=
    match lot_size with
    | some l => l
    | none =>
      match pos with
      | Except.ok p => p.lot_size
      | Except.error _ => 1 / 100
  let info_risk_pct :=
    match pos with
    | Except.ok p => p.risk_percent
    | Except.error _ => 0  -- `risk_info.get("risk_percent", 0)` on the error dict
  let w1 : List AssessWarning := if rr.ratio < 3 / 2 then [AssessWarning.lowRR rr.ratio] else []
  let w2 : List AssessWarning := if info_risk_pct > 2 then [AssessWarning.highRisk info_risk_pct] else []
  let risk_score : ℚ :=
    100 - (if rr.ratio < 3 / 2 then 20 else 0) - (if info_risk_pct > 2 then 15 else 0)
  let assessment :=
    if risk_score ≥ 80 then "LOW RISK"
    else if risk_score ≥ 60 then "MODERATE RISK"
    else if risk_score ≥ 40 then "HIGH RISK"
    else "VERY HIGH RISK"
  { assessment := assessment
    risk_score := max 0 risk_score
    can_proceed := decide (risk_score ≥ 40)
    lot_size := lot
    risk_reward := rr
    position_details := pos
    warnings := w1 ++ w2 }

/-- Result dict of `get_optimal_setup`. -/
structure Setup where
  direction : String
  entry : ℚ
  stop_loss : ℚ
  take_profit : ℚ
  lot_size : ℚ
  risk_percent : ℚ
  risk_amount : ℚ
  risk_reward : ℚ
  take_profit_levels : List TPLevel
  position_details : Except String PosInfo
  risk_assessment : AssessInfo
  confidence_adjusted_risk : ℚ
  custom_capital_used : Bool
deriving DecidableEq

/-- `RiskManager.get_optimal_setup`. -/
def getOptimalSetup (account : Option AccountInfo) (symbolInfo : Option SymbolInfo)
    (symClass : SymbolClass) (direction : String) (entry : ℚ)
    (support resistance : Option ℚ) (account_risk_level : String)
    (risk_percentage : Option ℚ) (confidence : ℚ) (custom_capital : Option ℚ) :
    Except String Setup :=
  match account with
  | none => Except.error "Cannot get account info"
  | some acct =>
    let balance :=
      match custom_capital with
      | some c => if c ≠ 0 ∧ c > 0 then c else acct.balance
      | none => acct.balance
    let risk_percent := effRiskPercent risk_percentage account_risk_level confidence
    let pip := rmPipSize symClass
    let dsl := rmDefaultSlPips symClass
    let isBuy := pyUpper direction = "BUY"
    let sl := if isBuy then buySL entry support pip dsl else sellSL entry resistance pip dsl
    let min_rr := minRR risk_percentage account_risk_level
    let tp :=
      if isBuy then buyTP entry sl resistance pip min_rr
      else sellTP entry sl support pip min_rr
    let pos_size := calcPositionSize (some acct) symbolInfo entry sl (some risk_percent)
      account_risk_level (some balance)
    let tp_levels := calcTakeProfitLevels entry sl direction
    -- `pos_size.get("lot_size")` is `None` on the error dict
    let lotOpt :=
      match pos_size with
      | Except.ok p => some p.lot_size
      | Except.error _ => none
    let risk_assessment := assessTradeRisk (some acct) symbolInfo entry sl tp lotOpt
      risk_percent (some balance)
    Except.ok
      { direction := direction
        entry := roundTo 5 entry
        stop_loss := roundTo 5 sl
        take_profit := roundTo 5 tp
        lot_size :=
          match pos_size with
          | Except.ok p => p.lot_size
          | Except.error _ => 1 / 100
        risk_percent := roundTo 2
          (match pos_size with
            | Except.ok p => p.risk_percent
            | Except.error _ => 1)
        risk_amount :=
          match pos_size with
          | Except.ok p => p.risk_amount
          | Except.error _ => 0
        risk_reward :=
          if |entry - sl| > 0 then roundTo 2 (|tp - entry| / |entry - sl|) else 0
        take_profit_levels := tp_levels
        position_details := pos_size
        risk_assessment := risk_assessment
        confidence_adjusted_risk := roundTo 2 risk_percent
        custom_capital_used := custom_capital.isSome }

end RiskManager

/-! ## genius_ai.py — `GeniusAI.analyze`

`analyze` fetches its own data through the live connector
(`connector.get_candles(symbol, timeframe, 200)`, tick prices, account
and symbol info) and runs the feature extractors, which live in modules
the claims treat as black boxes.  An `Env` records, for one call, what
the connector returns and the outcome of each extractor call
(`Except.error` = the call raised an exception). -/

/-- Abstract Python exception value. -/
abbrev PyErr := String

/-- Environment of one `GeniusAI.analyze` call. -/
structure Env where
  /-- result of `connector.get_candles(symbol, timeframe, 200)` -/
  connCandles : List Candle
  /-- results of `connector.get_tick_price(symbol, "bid"/"ask")` -/
  bid : Option ℚ
  ask : Option ℚ
  /-- outcome of `pattern_recognition.detect_all_patterns(candles)` -/
  patR : Except PyErr GeniusAI.PatternsResult
  /-- outcome of the MTF try-block (`analyze_all_timeframes` flattened view
  together with `get_best_entry_time`; one exception drops both) -/
  mtfSessR : Except PyErr (GeniusAI.MtfView × GeniusAI.SessionInfo)
  /-- outcome of `calculate_advanced_indicators(candles)` (`ok none` models a
  falsy return) -/
  advR : Except PyErr (Option GeniusAI.AdvIndicators)
  /-- outcome of `smart_money.analyze(candles)` -/
  smcR : Except PyErr GeniusAI.SmcResult
  /-- outcome of `market_structure.analyze(candles)` (its value is never read
  by the signal pipeline) -/
  mktR : Except PyErr Unit
  /-- outcome of `volume_analyzer.analyze(candles)` -/
  volR : Except PyErr GeniusAI.VolResult
  /-- result of `connector.get_account_info()` -/
  account : Option AccountInfo
  /-- result of `connector.get_symbol_info(symbol)` -/
  symbolInfo : Option SymbolInfo
  /-- class of the symbol string (drives the `in symbol` substring tests) -/
  symClass : SymbolClass

namespace GeniusAI

/-- The `result["analysis"]` sub-dict (fields consumed downstream; the
purely presentational `market_context`/`account` rows added after the
setup step are omitted). -/
structure AnalysisDict where
  technical : TechAnalysis
  patterns : Option PatternsView
  multi_timeframe : Option MtfView
  session : Option SessionInfo
  advanced_indicators : Option AdvIndicators
  smart_money : Option SmcResult
  market_structure : Option Unit
  volume : Option VolResult
deriving DecidableEq

/-- The dict returned by `GeniusAI.analyze`.  The early insufficient-data
return carries an empty analysis dict, modelled as `none`. -/
structure AnalyzeResult where
  status : String
  error : Option String
  signal : Option Signal
  analysis : Option AnalysisDict
  setup : Option RiskManager.Setup
  recommendation : Option String
deriving DecidableEq

/-- Python float truthiness for tick prices (`None` and `0.0` are falsy). -/
def truthy (o : Option ℚ) : Option ℚ :=
  match o with
  | some x => if x ≠ 0 then some x else none
  | none => none

/-- `GeniusAI.analyze` as a function of the outcome of its
`_technical_analysis` call (line 85, the one extractor call not wrapped
in a try/except: an exception there propagates out of `analyze`). -/
def analyzeWith (techR : Except PyErr TechAnalysis) (env : Env) (risk_level : String)
    (custom_capital : Option ℚ) (risk_percentage : Option ℚ) :
    Except PyErr AnalyzeResult :=
  let candles := env.connCandles
  if candles.length < 50 then
    Except.ok
      { status := "ERROR", error := some "Insufficient data", signal := none
        analysis := none, setup := none, recommendation := none }
  else
    -- real-time mid price from tick bid/ask, falling back to the last close
    let current_price :=
      match truthy env.bid, truthy env.ask with
      | some b, some a => (b + a) / 2
      | some b, none => b
      | none, some a => a
      | none, none => ((candles.getLast?).map (fun c => c.close)).getD 0
    match techR with
    | Except.error e => Except.error e
    | Except.ok tech =>
      let patterns : Option PatternsView :=
        match env.patR with
        | Except.ok p =>
          some
            { bullish := p.bullish, bearish := p.bearish
              total_bullish_strength := (p.bullish.map (fun q => q.strength)).sum
              total_bearish_strength := (p.bearish.map (fun q => q.strength)).sum }
        | Except.error _ => none
      let mtfSess : Option MtfView × Option SessionInfo :=
        match env.mtfSessR with
        | Except.ok r => (some r.1, some r.2)
        | Except.error _ => (none, none)
      let adv : Option AdvIndicators :=
        match env.advR with
        | Except.ok o => o
        | Except.error _ => some emptyAdv  -- substituted error dict, truthy
      let smc : Option SmcResult :=
        match env.smcR with
        | Except.ok s => some s
        | Except.error _ => none
      let mkt : Option Unit :=
        match env.mktR with
        | Except.ok u => some u
        | Except.error _ => none
      let vol : Option VolResult :=
        match env.volR with
        | Except.ok v => some v
        | Except.error _ => none
      let analysis : AnalysisDict :=
        { technical := tech, patterns := patterns, multi_timeframe := mtfSess.1
          session := mtfSess.2, advanced_indicators := adv, smart_money := smc
          market_structure := mkt, volume := vol }
      match calculateSignal tech patterns mtfSess.1 mtfSess.2 adv smc vol with
      | none =>
        Except.ok
          { status := "NO_SIGNAL", error := none, signal := none
            analysis := some analysis, setup := none, recommendation := some "WAIT" }
      | some sig =>
        let sr_levels := SRDetector.detect candles
        let setup := RiskManager.getOptimalSetup env.account env.symbolInfo env.symClass
          sig.direction current_price sr_levels.support.head? sr_levels.resistance.head?
          risk_level risk_percentage sig.confidence custom_capital
        match setup with
        | Except.error e =>
          Except.ok
            { status := "ERROR", error := some e, signal := some sig
              analysis := some analysis, setup := none, recommendation := none }
        | Except.ok st =>
          let recommendation :=
            if sig.confidence ≥ 80 ∧ st.risk_reward ≥ 2 then
              if sig.direction = "BUY" then "STRONG_BUY" else "STRONG_SELL"
            else if sig.confidence ≥ 70 ∧ st.risk_reward ≥ 3 / 2 then
              if sig.direction = "BUY" then "BUY" else "SELL"
            else if sig.confidence ≥ 60 then
              if sig.direction = "BUY" then "CAUTIOUS_BUY" else "CAUTIOUS_SELL"
            else "WAIT"
          Except.ok
            { status := "READY", error := none, signal := some sig
              analysis := some analysis, setup := some st
              recommendation := some recommendation }

/-- `GeniusAI.analyze`: the technical-analysis call is performed on the
connector candles. -/
def analyze (env : Env) (risk_level : String) (custom_capital : Option ℚ)
    (risk_percentage : Option ℚ) : Except PyErr AnalyzeResult :=
  analyzeWith (Except.ok (technicalAnalysis env.connCandles)) env risk_level
    custom_capital risk_percentage

end GeniusAI

/-! ## backtester.py -/

namespace Backtester

/-- `pip_size` table of `run_backtest` (lines 106-112): only JPY and
metals are special-cased, indices fall back to 0.0001. -/
def btPipSize : SymbolClass → ℚ
  | .jpy => 1 / 100
  | .metal => 1 / 10
  | .index => 1 / 10000
  | .major => 1 / 10000

/-- Signal dict returned by `Backtester._generate_signal`. -/
structure BtSignal where
  direction : String
  confidence : ℚ
  entry : ℚ
  stop_loss : ℚ
  take_profit : ℚ
  lot_size : ℚ
  risk_reward : ℚ
  reasons : List Reason
  entry_confidence : ℚ
deriving DecidableEq

/-- `Backtester._generate_signal`.  For the GENIUS_AI strategy it calls
`genius_ai.analyze(symbol=..., timeframe=..., risk_level=...)`: the
`candles` slice passed in is used only for the `len(candles) < 50` guard,
and the backtester's `risk_percentage` is not forwarded.  The broad
`except` returns `None` (this also swallows the `AttributeError` from
`setup.get` when `analysis["setup"]` is `None`). -/
def generateSignal (env : Env) (strategy : String) (candles : List Candle)
    (current_candle : Candle) (risk_level : String) (risk_percentage : Option ℚ) :
    Option BtSignal :=
  if candles.length < 50 then none
  else if strategy = "GENIUS_AI" then
    match GeniusAI.analyze env risk_level none none with
    | Except.error _ => none
    | Except.ok analysis =>
      match analysis.signal with
      | some sig =>
        if sig.confidence ≥ 70 then
          match analysis.setup with
          | some st =>
            some
              { direction := sig.direction
                confidence := sig.confidence
                entry := current_candle.close
                stop_loss := st.stop_loss
                take_profit := st.take_profit
                lot_size := st.lot_size
                risk_reward := st.risk_reward
                reasons := sig.reasons
                entry_confidence := sig.confidence }
          | none => none
        else none
      | none => none
  else none

/-- Open simulated position (dict built by `_open_position`). -/
structure Position where
  direction : String
  lot_size : ℚ
  entry_price : ℚ
  stop_loss : ℚ
  take_profit : ℚ
  risk_reward : ℚ
  entry_time : ℤ
  entry_confidence : ℚ
  reasons : List Reason
  pnl : ℚ
deriving DecidableEq

/-- `Backtester._open_position`: spread and slippage are both applied to
the entry price, against the direction of the trade. -/
def openPosition (signal : BtSignal) (candle : Candle)
    (slippage_pips spread_pips pip_size : ℚ) : Position :=
  let base_price := signal.entry
  let entry_price :=
    if signal.direction = "BUY" then
      base_price + spread_pips * pip_size + slippage_pips * pip_size
    else
      base_price - spread_pips * pip_size - slippage_pips * pip_size
  { direction := signal.direction
    lot_size := signal.lot_size
    entry_price := entry_price
    stop_loss := signal.stop_loss
    take_profit := signal.take_profit
    risk_reward := signal.risk_reward
    entry_time := candle.time
    entry_confidence := signal.entry_confidence
    reasons := signal.reasons
    pnl := 0 }

/-- Closed-trade record built by `_close_position`. -/
structure TradeRec where
  direction : String
  lot_size : ℚ
  entry_price : ℚ
  exit_price : ℚ
  stop_loss : ℚ
  take_profit : ℚ
  pnl : ℚ
  pnl_pct : ℚ
  pips : ℚ
  entry_time : ℤ
  exit_time : ℤ
  duration_minutes : ℚ
  duration_hours : ℚ
  exit_reason : String
  entry_confidence : ℚ
  risk_reward : ℚ
  achieved_rr : ℚ
  sl_distance_pips : ℚ
  tp_distance_pips : ℚ
  session : String
  day_of_week : ℤ
  hour_of_day : ℤ
deriving DecidableEq

/-- `Backtester._get_trade_context`.  `datetime.fromtimestamp` applies the
host timezone; the embedding reads the unix timestamp as UTC (the
session/day/hour fields feed no claim). -/
def tradeContext (entry_time : ℤ) : String × ℤ × ℤ :=
  let hour := (entry_time.ediv 3600).emod 24
  let day_of_week := ((entry_time.ediv 86400) + 3).emod 7
  let session :=
    if 22 ≤ hour ∨ hour < 7 then "SYDNEY"
    else if 0 ≤ hour ∧ hour < 9 then "TOKYO"
    else if 8 ≤ hour ∧ hour < 17 then "LONDON"
    else if 13 ≤ hour ∧ hour < 22 then "NEW_YORK"
    else "OVERLAP"
  (session, day_of_week, hour)

/-- `Backtester._close_position`.  `exit_price = None` means "candle
close" (the TIMEOUT force-close). -/
def closePosition (position : Position) (candle : Candle) (exit_reason : String)
    (si : SymbolInfo) (pip_size : ℚ) (exit_price? : Option ℚ) : TradeRec :=
  let direction := position.direction
  let entry_price := position.entry_price
  let exit_price := exit_price?.getD candle.close
  -- `point_value = trade_tick_value / trade_tick_size` (both keys exist in
  -- the connector dict)
  let point_value := si.trade_tick_value / si.trade_tick_size
  let pnl :=
    if direction = "BUY" then
      (exit_price - entry_price) / pip_size * position.lot_size * point_value * pip_size
    else
      (entry_price - exit_price) / pip_size * position.lot_size * point_value * pip_size
  let pips :=
    if direction = "BUY" then (exit_price - entry_price) / pip_size
    else (entry_price - exit_price) / pip_size
  let entry_time := position.entry_time
  let exit_time := candle.time
  let duration := ((exit_time - entry_time : ℤ) : ℚ) / 60
  let sl_distance_pips := |entry_price - position.stop_loss| / pip_size
  let tp_distance_pips := |position.take_profit - entry_price| / pip_size
  let achieved_rr := if sl_distance_pips > 0 then |pips| / sl_distance_pips else 0
  let ctx := tradeContext entry_time
  { direction := direction
    lot_size := position.lot_size
    entry_price := entry_price
    exit_price := exit_price
    stop_loss := position.stop_loss
    take_profit := position.take_profit
    pnl := pnl
    pnl_pct := pnl / 10000 * 100
    pips := pips
    entry_time := entry_time
    exit_time := exit_time
    duration_minutes := duration
    duration_hours := duration / 60
    exit_reason := exit_reason
    entry_confidence := position.entry_confidence
    risk_reward := position.risk_reward
    achieved_rr := achieved_rr
    sl_distance_pips := sl_distance_pips
    tp_distance_pips := tp_distance_pips
    session := ctx.1
    day_of_week := ctx.2.1
    hour_of_day := ctx.2.2 }

/-- `Backtester._check_exit`: SL is checked before TP against the
candle's low/high; the exit fill is offset from the level by
`slippage_pips * pip_size` toward the entry side.  The `spread_pips`
parameter is accepted but never used by the source. -/
def checkExit (position : Position) (candle : Candle) (si : SymbolInfo)
    (slippage_pips spread_pips pip_size : ℚ) : Option TradeRec :=
  let sl := position.stop_loss
  let tp := position.take_profit
  let high := candle.high
  let low := candle.low
  if position.direction = "BUY" then
    if low ≤ sl then
      some (closePosition position candle "SL_HIT" si pip_size (some (sl + slippage_pips * pip_size)))
    else if high ≥ tp then
      some (closePosition position candle "TP_HIT" si pip_size (some (tp - slippage_pips * pip_size)))
    else none
  else
    if high ≥ sl then
      some (closePosition position candle "SL_HIT" si pip_size (some (sl - slippage_pips * pip_size)))
    else if low ≤ tp then
      some (closePosition position candle "TP_HIT" si pip_size (some (tp + slippage_pips * pip_size)))
    else none

end Backtester

/-- Backtest performance metrics (`_calculate_metrics` result).  The
`sharpe_ratio` / `sortino_ratio` entries involve a real square root
(`std_dev = variance ** 0.5`, annualised by `252 ** 0.5`) and are omitted
from the embedding; no claim mentions them. -/
structure Metrics where
  total_trades : ℕ
  winning_trades : ℕ
  losing_trades : ℕ
  break_even_trades : ℕ
  win_rate : ℚ
  profit_factor : ℚ
  total_profit : ℚ
  total_loss : ℚ
  net_profit : ℚ
  net_profit_pct : ℚ
  avg_profit : ℚ
  avg_loss : ℚ
  avg_trade : ℚ
  max_drawdown : ℚ
  max_drawdown_pct : ℚ
  expectancy : ℚ
  profit_expectancy_pct : ℚ
  largest_win : ℚ
  largest_loss : ℚ
  avg_winner : ℚ
  avg_loser : ℚ
  avg_win_pips : ℚ
  avg_loss_pips : ℚ
  avg_risk_reward : ℚ
  best_rr : ℚ
  worst_rr : ℚ
  longest_winning_streak : ℕ
  longest_losing_streak : ℕ
  avg_trade_duration : ℚ
  tp_hits : ℕ
  sl_hits : ℕ
  manual_exits : ℕ
  timeout_exits : ℕ
  initial_capital : ℚ
  final_balance : ℚ
deriving DecidableEq

/-- `Backtester._calculate_streaks`: longest winning and losing streaks;
break-even trades reset both counters. -/
def calcStreaks (trades : List Backtester.TradeRec) : ℕ × ℕ :=
  let final := trades.foldl
    (fun (st : ℕ × ℕ × ℕ × ℕ) t =>
      let (lw, ll, cw, cl) := st
      if t.pnl > (0 : ℚ) then (max lw (cw + 1), ll, cw + 1, 0)
      else if t.pnl < (0 : ℚ) then (lw, max ll (cl + 1), 0, cl + 1)
      else (lw, ll, 0, 0))
    (0, 0, 0, 0)
  (final.1, final.2.1)

/-- `Backtester._calculate_drawdown`: peak-to-trough decline of the
running balance. -/
def calcDrawdown (trades : List Backtester.TradeRec) (initial_capital : ℚ) : ℚ × ℚ :=
  let final := trades.foldl
    (fun (st : ℚ × ℚ × ℚ × ℚ) t =>
      let (balance, peak, maxdd, maxddpct) := st
      let balance := balance + t.pnl
      let peak := max peak balance
      if peak > 0 then
        let drawdown := peak - balance
        let drawdown_pct := drawdown / peak * 100
        if drawdown > maxdd then (balance, peak, drawdown, drawdown_pct)
        else (balance, peak, maxdd, maxddpct)
      else (balance, peak, maxdd, maxddpct))
    (initial_capital, initial_capital, 0, 0)
  (final.2.2.1, final.2.2.2)

/-- Python `max(l)` on a nonempty rational list (`0` for `[]`, a case the
source guards). -/
def listMax : List ℚ → ℚ
  | [] => 0
  | h :: t => t.foldl max h

/-- Python `min(l)` on a nonempty rational list. -/
def listMin : List ℚ → ℚ
  | [] => 0
  | h :: t => t.foldl min h

/-- `Backtester._empty_metrics`. -/
def emptyMetrics : Metrics :=
  { total_trades := 0, winning_trades := 0, losing_trades := 0
    break_even_trades := 0, win_rate := 0, profit_factor := 0
    total_profit := 0, total_loss := 0, net_profit := 0, net_profit_pct := 0
    avg_profit := 0, avg_loss := 0, avg_trade := 0
    max_drawdown := 0, max_drawdown_pct := 0
    expectancy := 0, profit_expectancy_pct := 0
    largest_win := 0, largest_loss := 0, avg_winner := 0, avg_loser := 0
    avg_win_pips := 0, avg_loss_pips := 0
    avg_risk_reward := 0, best_rr := 0, worst_rr := 0
    longest_winning_streak := 0, longest_losing_streak := 0
    avg_trade_duration := 0
    tp_hits := 0, sl_hits := 0, manual_exits := 0, timeout_exits := 0
    initial_capital := 10000, final_balance := 10000 }

/-- Gross profit of `_calculate_metrics`: the pnl sum over winning trades
(0 when there are none). -/
def grossProfit (trades : List Backtester.TradeRec) : ℚ :=
  let winning_trades := trades.filter (fun t => t.pnl > 0)
  if winning_trades ≠ [] then (winning_trades.map (fun t => t.pnl)).sum else 0

/-- Gross loss of `_calculate_metrics`: the (non-positive) pnl sum over
losing trades (0 when there are none). -/
def grossLoss (trades : List Backtester.TradeRec) : ℚ :=
  let losing_trades := trades.filter (fun t => t.pnl < 0)
  if losing_trades ≠ [] then (losing_trades.map (fun t => t.pnl)).sum else 0

/-- `Backtester._calculate_metrics`. -/
def calcMetrics (trades : List Backtester.TradeRec) (initial_capital final_balance : ℚ) :
    Metrics :=
  if trades = [] then emptyMetrics
  else
    let total_trades := trades.length
    let winning_trades := trades.filter (fun t => t.pnl > 0)
    let losing_trades := trades.filter (fun t => t.pnl < 0)
    let break_even_trades := trades.filter (fun t => t.pnl = 0)
    let win_count := winning_trades.length
    let loss_count := losing_trades.length
    let total_profit := grossProfit trades
    let total_loss := grossLoss trades
    let net_profit := total_profit + total_loss
    let net_profit_pct := net_profit / initial_capital * 100
    let win_rate := if total_trades > 0 then (win_count : ℚ) / (total_trades : ℚ) * 100 else 0
    let avg_profit := if win_count > 0 then total_profit / (win_count : ℚ) else 0
    let avg_loss := if loss_count > 0 then total_loss / (loss_count : ℚ) else 0
    let avg_trade := if total_trades > 0 then net_profit / (total_trades : ℚ) else 0
    let largest_win := if winning_trades ≠ [] then listMax (winning_trades.map (fun t => t.pnl)) else 0
    let largest_loss := if losing_trades ≠ [] then listMin (losing_trades.map (fun t => t.pnl)) else 0
    -- profit factor: 0 whenever the gross loss is zero
    let profit_factor := if total_loss ≠ 0 then |total_profit / total_loss| else 0
    let expectancy := avg_trade
    let expectancy_pct := if initial_capital > 0 then avg_trade / initial_capital * 100 else 0
    let rr_values := trades.filterMap (fun t => if t.achieved_rr > 0 then some t.achieved_rr else none)
    let avg_rr := if rr_values ≠ [] then rr_values.sum / (rr_values.length : ℚ) else 0
    let best_rr := if rr_values ≠ [] then listMax rr_values else 0
    let worst_rr := if rr_values ≠ [] then listMin rr_values else 0
    let tp_hits := (trades.filter (fun t => t.exit_reason = "TP_HIT")).length
    let sl_hits := (trades.filter (fun t => t.exit_reason = "SL_HIT")).length
    let timeout_exits := (trades.filter (fun t => t.exit_reason = "TIMEOUT")).length
    let manual_exits := (trades.filter (fun t => t.exit_reason = "MANUAL")).length
    let streaks := calcStreaks trades
    let dd := calcDrawdown trades initial_capital
    let durations := trades.map (fun t => t.duration_minutes)
    let avg_duration := if durations ≠ [] then durations.sum / (durations.length : ℚ) else 0
    let winning_pips := winning_trades.map (fun t => t.pips)
    let losing_pips := losing_trades.map (fun t => t.pips)
    let avg_win_pips := if winning_pips ≠ [] then winning_pips.sum / (winning_pips.length : ℚ) else 0
    let avg_loss_pips := if losing_pips ≠ [] then losing_pips.sum / (losing_pips.length : ℚ) else 0
    { total_trades := total_trades
      winning_trades := win_count
      losing_trades := loss_count
      break_even_trades := break_even_trades.length
      win_rate := win_rate
      profit_factor := if profit_factor > 0 then roundTo 2 profit_factor else 0
      total_profit := roundTo 2 total_profit
      total_loss := roundTo 2 total_loss
      net_profit := roundTo 2 net_profit
      net_profit_pct := roundTo 2 net_profit_pct
      avg_profit := roundTo 2 avg_profit
      avg_loss := roundTo 2 avg_loss
      avg_trade := roundTo 2 avg_trade
      max_drawdown := roundTo 2 dd.1
      max_drawdown_pct := roundTo 2 dd.2
      expectancy := roundTo 2 expectancy
      profit_expectancy_pct := roundTo 2 expectancy_pct
      largest_win := roundTo 2 largest_win
      largest_loss := roundTo 2 largest_loss
      avg_winner := if win_count > 0 then roundTo 2 avg_profit else 0
      avg_loser := if loss_count > 0 then roundTo 2 avg_loss else 0
      avg_win_pips := roundTo 1 avg_win_pips
      avg_loss_pips := roundTo 1 avg_loss_pips
      avg_risk_reward := roundTo 2 avg_rr
      best_rr := roundTo 2 best_rr
      worst_rr := roundTo 2 worst_rr
      longest_winning_streak := streaks.1
      longest_losing_streak := streaks.2
      avg_trade_duration := roundTo 2 avg_duration
      tp_hits := tp_hits
      sl_hits := sl_hits
      manual_exits := manual_exits
      timeout_exits := timeout_exits
      initial_capital := initial_capital
      final_balance := roundTo 2 final_balance }

namespace Backtester

/-- Configuration of one `run_backtest` call (strategy / risk / cost
parameters). -/
structure BtConfig where
  strategy : String
  risk_level : String
  risk_percentage : Option ℚ
  slippage_pips : ℚ
  spread_pips : ℚ
  initial_capital : ℚ
deriving DecidableEq

/-- Mutable candle-loop state of `run_backtest`: balance, closed trades,
open position. -/
structure SimState where
  balance : ℚ
  trades : List TradeRec
  openPos : Option Position
deriving DecidableEq

/-- The safety cap `self.max_trades = 1000`. -/
def maxTrades : ℕ := 1000

/-- The `self.min_candles = 100` requirement. -/
def minCandles : ℕ := 100

/-- The per-candle loop of `run_backtest` (lines 116-191): `past` is the
already-consumed prefix, so the signal call receives
`filtered_candles[:i+1] = past ++ [c]`.  Reaching `max_trades` right
after a close breaks out of the loop. -/
def runLoop (env : Env) (cfg : BtConfig) (si : SymbolInfo) (pip_size : ℚ) :
    List Candle → List Candle → SimState → SimState
  | _, [], st => st
  | past, c :: rest, st =>
    match st.openPos with
    | some pos =>
      match checkExit pos c si cfg.slippage_pips cfg.spread_pips pip_size with
      | some trade =>
        let st' : SimState :=
          { balance := st.balance + trade.pnl, trades := st.trades ++ [trade], openPos := none }
        if maxTrades ≤ st'.trades.length then st'  -- safety break
        else runLoop env cfg si pip_size (past ++ [c]) rest st'  -- `continue`
      | none => runLoop env cfg si pip_size (past ++ [c]) rest st
    | none =>
      match generateSignal env cfg.strategy (past ++ [c]) c cfg.risk_level
          cfg.risk_percentage with
      | some sig =>
        runLoop env cfg si pip_size (past ++ [c]) rest
          { st with openPos := some (openPosition sig c cfg.slippage_pips cfg.spread_pips pip_size) }
      | none => runLoop env cfg si pip_size (past ++ [c]) rest st

/-- `Backtester.run_backtest` after the date filtering: the candle loop,
the forced TIMEOUT close of a remaining position on the final candle,
and the metrics pass.  Database/progress side effects are out of scope. -/
def runBacktest (env : Env) (cfg : BtConfig) (filtered_candles : List Candle) :
    Except String (List TradeRec × Metrics × ℚ) :=
  if filtered_candles.length < minCandles then
    Except.error "Insufficient candles in date range"
  else
    match env.symbolInfo with
    | none => Except.error "Cannot get symbol info"
    | some si =>
      let pip_size := btPipSize env.symClass
      let final := runLoop env cfg si pip_size [] filtered_candles
        { balance := cfg.initial_capital, trades := [], openPos := none }
      let closed :=
        match final.openPos, filtered_candles.getLast? with
        | some pos, some last_candle =>
          let trade := closePosition pos last_candle "TIMEOUT" si pip_size none
          (final.trades ++ [trade], final.balance + trade.pnl)
        | _, _ => (final.trades, final.balance)
      Except.ok (closed.1, calcMetrics closed.1 cfg.initial_capital closed.2, closed.2)

end Backtester

/-! ## Concrete fixtures used by the theorems below -/

/-- A flat candle (all prices 2). -/
def cCandle : Candle := { time := 0, openP := 2, high := 2, low := 2, close := 2, volume := 1 }

/-- 50 flat candles — the minimum history `analyze` accepts. -/
def conn50 : List Candle := List.replicate 50 cCandle

/-- 10 flat candles — below the 50-candle minimum of `analyze`. -/
def conn10 : List Candle := List.replicate 10 cCandle

/-- Symbol metadata fixture (5-digit major quote). -/
def siA : SymbolInfo :=
  { point := 1 / 100000, trade_tick_size := 1 / 100000, trade_tick_value := 1
    trade_contract_size := 100000, volume_min := 1 / 100, volume_max := 100
    volume_step := 1 / 100 }

/-- Account fixture. -/
def acctA : AccountInfo := { balance := 10000, equity := 10000, leverage := 100 }

/-- Strongly bullish extractor outcomes: one 100-strength bullish pattern,
aligned MTF confluence, a HIGH-quality session, bullish smart-money and
volume scores. -/
def patA : GeniusAI.PatternsResult :=
  { bullish := [{ name := "P", ptype := "reversal", strength := 100, description := "" }]
    bearish := [] }

/-- Bullish MTF view and HIGH session for the fixtures. -/
def mtfSessA : GeniusAI.MtfView × GeniusAI.SessionInfo :=
  ({ trend_direction := "BULLISH", alignment_score := 100 }, { quality := "HIGH" })

/-- Bullish category score row. -/
def scoreA : GeniusAI.ScoreRow := { bullish := 100, bearish := 0, reasons := [] }

/-- Environment with the bullish extractor outcomes above and a given
connector candle list. -/
def mkEnvA (cs : List Candle) : Env :=
  { connCandles := cs
    bid := some 2
    ask := some 2
    patR := Except.ok patA
    mtfSessR := Except.ok mtfSessA
    advR := Except.ok none
    smcR := Except.ok { score := some scoreA }
    mktR := Except.ok ()
    volR := Except.ok { score := some scoreA }
    account := some acctA
    symbolInfo := some siA
    symClass := SymbolClass.major }

/-- Environment whose connector has no candles at all (every `analyze`
call fails with the insufficient-data status). -/
def envNoData : Env := mkEnvA []

/-- An open BUY position fixture: entry 1.1005, SL 1.09, TP 1.12. -/
def posB : Backtester.Position :=
  { direction := "BUY", lot_size := 1, entry_price := 11005 / 10000
    stop_loss := 109 / 100, take_profit := 112 / 100, risk_reward := 2
    entry_time := 0, entry_confidence := 80, reasons := [], pnl := 0 }

/-- A candle whose low touches the stop loss of `posB`. -/
def candleLow : Candle :=
  { time := 3600, openP := 11 / 10, high := 1101 / 1000, low := 1085 / 1000
    close := 1090 / 1000, volume := 1 }

/-- A single winning trade record (pnl = 10). -/
def winTrade : Backtester.TradeRec :=
  { direction := "BUY", lot_size := 1, entry_price := 1, exit_price := 2
    stop_loss := 1 / 2, take_profit := 2, pnl := 10, pnl_pct := 1 / 10, pips := 100
    entry_time := 0, exit_time := 60, duration_minutes := 1, duration_hours := 1 / 60
    exit_reason := "TP_HIT", entry_confidence := 80, risk_reward := 2, achieved_rr := 2
    sl_distance_pips := 50, tp_distance_pips := 100, session := "TOKYO"
    day_of_week := 3, hour_of_day := 0 }

/-- Backtest configuration with a strategy name that generates no
signals. -/
def cfgCustom : Backtester.BtConfig :=
  { strategy := "CUSTOM", risk_level := "moderate", risk_percentage := none
    slippage_pips := 1, spread_pips := 1, initial_capital := 10000 }

/-- 100 flat candles — the minimum `run_backtest` accepts. -/
def candles100 : List Candle := List.replicate 100 cCandle

/-! ## Helper lemmas -/

theorem roundTo_le (d : ℕ) (x : ℚ) : roundTo d x ≤ x + 1 / (2 * 10 ^ d) := by
  unfold roundTo
  have hk : (0 : ℚ) < 10 ^ d := by positivity
  rw [div_le_iff hk]
  have := Int.floor_le (x * (10 ^ d : ℚ) + 1 / 2)
  calc ((⌊x * (10 ^ d : ℚ) + 1 / 2⌋ : ℤ) : ℚ) ≤ x * (10 ^ d : ℚ) + 1 / 2 := this
    _ = (x + 1 / (2 * 10 ^ d)) * 10 ^ d := by field_simp; ring

theorem lt_roundTo (d : ℕ) (x : ℚ) : x - 1 / (2 * 10 ^ d) < roundTo d x := by
  unfold roundTo
  have hk : (0 : ℚ) < 10 ^ d := by positivity
  rw [lt_div_iff hk]
  have := Int.sub_one_lt_floor (x * (10 ^ d : ℚ) + 1 / 2)
  calc (x - 1 / (2 * 10 ^ d)) * 10 ^ d = x * (10 ^ d : ℚ) + 1 / 2 - 1 := by field_simp; ring
    _ < (⌊x * (10 ^ d : ℚ) + 1 / 2⌋ : ℚ) := this

theorem roundTo_mono (d : ℕ) {x y : ℚ} (h : x ≤ y) : roundTo d x ≤ roundTo d y := by
  unfold roundTo
  have hk : (0 : ℚ) < 10 ^ d := by positivity
  have hfl : (⌊x * (10 ^ d : ℚ) + 1 / 2⌋ : ℤ) ≤ ⌊y * (10 ^ d : ℚ) + 1 / 2⌋ := by
    apply Int.floor_le_floor
    have := mul_le_mul_of_nonneg_right h (le_of_lt hk)
    linarith
  have hcast : ((⌊x * (10 ^ d : ℚ) + 1 / 2⌋ : ℤ) : ℚ) ≤ ((⌊y * (10 ^ d : ℚ) + 1 / 2⌋ : ℤ) : ℚ) := by
    exact_mod_cast hfl
  exact div_le_div_of_nonneg_right hcast hk.le

theorem roundTo_strict (d : ℕ) {x y : ℚ} (h : x + 1 / 10 ^ d < y) :
    roundTo d x < roundTo d y := by
  have h1 := roundTo_le d x
  have h2 := lt_roundTo d y
  have hk : (0 : ℚ) < 10 ^ d := by positivity
  have : (1 : ℚ) / (2 * 10 ^ d) + 1 / (2 * 10 ^ d) = 1 / 10 ^ d := by field_simp; ring
  linarith

theorem roundTo_one_95 : roundTo 1 (95 : ℚ) = 95 := by norm_num [roundTo]

theorem roundTo_min95 (x : ℚ) : roundTo 1 (min 95 x) = min 95 (roundTo 1 x) := by
  rcases le_total x 95 with h | h
  · rw [min_eq_right h, min_eq_right]
    calc roundTo 1 x ≤ roundTo 1 95 := roundTo_mono 1 h
      _ = 95 := roundTo_one_95
  · rw [min_eq_left h, min_eq_left, roundTo_one_95]
    calc (95 : ℚ) = roundTo 1 95 := roundTo_one_95.symm
      _ ≤ roundTo 1 x := roundTo_mono 1 h

/-! ## C4 — composite scorer emission rule -/

/-- C4: the composite scorer emits a signal iff the winning side's
weighted score is at least 45, the gap between the weighted scores is at
least 10 and the winner is strict; otherwise it returns `none`.  An
emitted signal's confidence is the winning weighted score capped at 95
(as reported, rounded to one decimal; equivalently the reported winning
score capped at 95), and all-neutral category inputs yield `none`. -/
theorem C4_composite_threshold (rs : List Reason)
    (mB mBe tB tBe sB sBe pB pBe vB vBe srB srBe mult : ℚ) :
    (((GeniusAI.compositeDecision rs mB mBe tB tBe sB sBe pB pBe vB vBe srB srBe mult).isSome
        = true) ↔
      ((GeniusAI.weightedScore mB tB sB pB vB srB mult >
          GeniusAI.weightedScore mBe tBe sBe pBe vBe srBe mult ∧
        GeniusAI.weightedScore mB tB sB pB vB srB mult ≥ 45 ∧
        |GeniusAI.weightedScore mB tB sB pB vB srB mult -
          GeniusAI.weightedScore mBe tBe sBe pBe vBe srBe mult| ≥ 10) ∨
       (GeniusAI.weightedScore mBe tBe sBe pBe vBe srBe mult >
          GeniusAI.weightedScore mB tB sB pB vB srB mult ∧
        GeniusAI.weightedScore mBe tBe sBe pBe vBe srBe mult ≥ 45 ∧
        |GeniusAI.weightedScore mB tB sB pB vB srB mult -
          GeniusAI.weightedScore mBe tBe sBe pBe vBe srBe mult| ≥ 10))) ∧
    (∀ s, GeniusAI.compositeDecision rs mB mBe tB tBe sB sBe pB pBe vB vBe srB srBe mult
        = some s →
      s.confidence = roundTo 1 (min 95
        (max (GeniusAI.weightedScore mB tB sB pB vB srB mult)
          (GeniusAI.weightedScore mBe tBe sBe pBe vBe srBe mult))) ∧
      s.confidence = min 95
        (if GeniusAI.weightedScore mB tB sB pB vB srB mult >
            GeniusAI.weightedScore mBe tBe sBe pBe vBe srBe mult
          then s.bullish_score else s.bearish_score)) ∧
    ((mB = mBe ∧ tB = tBe ∧ sB = sBe ∧ pB = pBe ∧ vB = vBe ∧ srB = srBe) →
      GeniusAI.compositeDecision rs mB mBe tB tBe sB sBe pB pBe vB vBe srB srBe mult
        = none) := by
  simp only [GeniusAI.compositeDecision]
  set bull := GeniusAI.weightedScore mB tB sB pB vB srB mult with hbull
  set bear := GeniusAI.weightedScore mBe tBe sBe pBe vBe srBe mult with hbear
  have hneutral : (mB = mBe ∧ tB = tBe ∧ sB = sBe ∧ pB = pBe ∧ vB = vBe ∧ srB = srBe) →
      bull = bear := by
    rintro ⟨h1, h2, h3, h4, h5, h6⟩
    rw [hbull, hbear, h1, h2, h3, h4, h5, h6]
  by_cases hc1 : bull > bear ∧ bull ≥ 45 ∧ |bull - bear| ≥ 10
  · rw [if_pos hc1]
    refine ⟨iff_of_true (by simp) (Or.inl hc1), ?_, ?_⟩
    · intro s hs
      rw [Option.some_inj] at hs
      subst hs
      refine ⟨?_, ?_⟩
      · simp only [max_eq_left (le_of_lt hc1.1)]
      · simp only [if_pos hc1.1]
        exact roundTo_min95 bull
    · intro h
      exact absurd (hneutral h ▸ hc1.1) (lt_irrefl _)
  · rw [if_neg hc1]
    by_cases hc2 : bear > bull ∧ bear ≥ 45 ∧ |bull - bear| ≥ 10
    · rw [if_pos hc2]
      refine ⟨iff_of_true (by simp) (Or.inr hc2), ?_, ?_⟩
      · intro s hs
        rw [Option.some_inj] at hs
        subst hs
        refine ⟨?_, ?_⟩
        · simp only [max_eq_right (le_of_lt hc2.1)]
        · have hnot : ¬ bull > bear := asymm hc2.1
          simp only [if_neg hnot]
          exact roundTo_min95 bear
      · intro h
        exact absurd (hneutral h ▸ hc2.1) (lt_irrefl _)
    · rw [if_neg hc2]
      exact ⟨iff_of_false (by simp) (fun h => h.elim hc1 hc2),
        fun s hs => absurd hs (by simp), fun _ => rfl⟩

/-- Witness for C4: a strongly bullish input (weighted score 90) emits,
and a fully neutral input yields `none`. -/
theorem C4_composite_threshold_witness :
    (GeniusAI.compositeDecision [] 100 0 100 0 100 0 100 0 100 0 50 50 1).isSome = true ∧
    GeniusAI.compositeDecision [] 50 50 50 50 50 50 50 50 50 50 50 50 1 = none := by
  constructor
  · exact (C4_composite_threshold [] 100 0 100 0 100 0 100 0 100 0 50 50 1).1.mpr
      (Or.inl (by norm_num [GeniusAI.weightedScore]))
  · exact (C4_composite_threshold [] 50 50 50 50 50 50 50 50 50 50 50 50 1).2.2
      (by norm_num)

/-! ## C10 — score and confidence bounds of the composite scorer -/

/-- C10 counterexample: with every category percentage at most 100
(mtf/tech/smc/patterns/volume at 100, S/R at its fixed 50) and the HIGH
session multiplier 1.15, the scorer emits confidence 95 — the cap is
attained and exceeds the claimed bound 86.25; the weighted score itself
is 103.5. -/
theorem C10_confidence_cap_counterexample :
    (GeniusAI.compositeDecision [] 100 0 100 0 100 0 100 0 100 0 50 50
        (115 / 100)).map (fun s => s.confidence) = some 95 ∧
      (8625 / 100 : ℚ) < 95 ∧
      GeniusAI.weightedScore 100 100 100 100 100 50 (115 / 100) = 1035 / 10 := by
  refine ⟨?_, by norm_num, by norm_num [GeniusAI.weightedScore]⟩
  norm_num [GeniusAI.compositeDecision, GeniusAI.weightedScore, roundTo,
    abs_of_nonneg (show (0 : ℚ) ≤ 391 / 4 by norm_num)]

/-- C10 amended: the additive weights sum to 0.95 (not 0.75), so with
each category percentage in [0, 100] and a session multiplier in
[0, 1.15] a weighted score is bounded by 109.25 (not 86.25); the emitted
confidence is bounded by the cap 95, which is attainable. -/
theorem C10_score_bound_amended :
    (∀ m t sc p v sr mult : ℚ, 0 ≤ m → m ≤ 100 → 0 ≤ t → t ≤ 100 → 0 ≤ sc → sc ≤ 100 →
      0 ≤ p → p ≤ 100 → 0 ≤ v → v ≤ 100 → 0 ≤ sr → sr ≤ 100 → 0 ≤ mult → mult ≤ 23 / 20 →
      GeniusAI.weightedScore m t sc p v sr mult ≤ 10925 / 100) ∧
    (∀ (rs : List Reason) (mB mBe tB tBe sB sBe pB pBe vB vBe srB srBe mult : ℚ) s,
      GeniusAI.compositeDecision rs mB mBe tB tBe sB sBe pB pBe vB vBe srB srBe mult
          = some s → s.confidence ≤ 95) := by
  constructor
  · intro m t sc p v sr mult h1 h2 h3 h4 h5 h6 h7 h8 h9 h10 h11 h12 h13 h14
    unfold GeniusAI.weightedScore
    have hsum : m * (25 / 100) + t * (20 / 100) + sc * (15 / 100) + p * (15 / 100) +
        v * (10 / 100) + sr * (10 / 100) ≤ 95 := by linarith
    have hsum0 : 0 ≤ m * (25 / 100) + t * (20 / 100) + sc * (15 / 100) + p * (15 / 100) +
        v * (10 / 100) + sr * (10 / 100) := by linarith
    calc (m * (25 / 100) + t * (20 / 100) + sc * (15 / 100) + p * (15 / 100) +
          v * (10 / 100) + sr * (10 / 100)) * mult
        ≤ 95 * (23 / 20) := mul_le_mul hsum h14 h13 (by norm_num)
      _ ≤ 10925 / 100 := by norm_num
  · intro rs mB mBe tB tBe sB sBe pB pBe vB vBe srB srBe mult s hs
    have hcap : ∀ x : ℚ, roundTo 1 (min 95 x) ≤ 95 := fun x =>
      le_of_le_of_eq (roundTo_mono 1 (min_le_left 95 x)) roundTo_one_95
    simp only [GeniusAI.compositeDecision] at hs
    split_ifs at hs <;> simp only [Option.some_inj] at hs <;> first
      | exact hs ▸ hcap _
      | exact absurd hs (by simp)

/-- Witness for C10 amended: the bound applied to a maximal input, and the
confidence bound applied to a concrete emitted signal. -/
theorem C10_score_bound_witness :
    GeniusAI.weightedScore 100 100 100 100 100 100 (23 / 20) ≤ 10925 / 100 ∧
    ∀ s, GeniusAI.compositeDecision [] 100 0 100 0 100 0 100 0 100 0 50 50 1 = some s →
      s.confidence ≤ 95 := by
  constructor
  · exact C10_score_bound_amended.1 100 100 100 100 100 100 (23 / 20)
      (by norm_num) (by norm_num) (by norm_num) (by norm_num) (by norm_num) (by norm_num)
      (by norm_num) (by norm_num) (by norm_num) (by norm_num) (by norm_num) (by norm_num)
      (by norm_num) (by norm_num)
  · exact fun s hs => C10_score_bound_amended.2 [] 100 0 100 0 100 0 100 0 100 0 50 50 1 s hs

/-! ## C2 — insufficient-data behaviour of RSI and MACD -/

/-- C2 counterexample: a 5-candle window (below RSI's 15-candle minimum
and MACD's 27-candle minimum) makes RSI return a zero-filled numeric
series of the same length — not an empty/`None` marker — and MACD return
zero-filled macd/signal/histogram series. -/
theorem C2_zero_fill_counterexample :
    RSICalculator.calculate (List.replicate 5 cCandle) = List.replicate 5 0 ∧
    RSICalculator.calculate (List.replicate 5 cCandle) ≠ [] ∧
    MACDCalculator.calculate (List.replicate 5 cCandle) =
      { macd := List.replicate 5 0, signal := List.replicate 5 (some 0)
        histogram := List.replicate 5 0 } := by
  refine ⟨?_, ?_, ?_⟩
  · simp [RSICalculator.calculate]
  · simp [RSICalculator.calculate]
  · simp [MACDCalculator.calculate, List.map_replicate]

/-- C2 amended: for windows below the minimum lookback, RSI (period 14)
returns a zero-filled list of the window's length and MACD (slow 26)
returns zero-filled macd/signal/histogram lists — default numeric series,
not the empty/`None` insufficient-data markers. -/
theorem C2_short_window_zero_fill :
    (∀ cs : List Candle, cs.length < 15 →
      RSICalculator.calculate cs = List.replicate cs.length 0) ∧
    (∀ cs : List Candle, cs.length < 27 →
      MACDCalculator.calculate cs =
        { macd := List.replicate cs.length 0, signal := List.replicate cs.length (some 0)
          histogram := List.replicate cs.length 0 }) := by
  constructor
  · intro cs h
    simp [RSICalculator.calculate, h]
  · intro cs h
    simp [MACDCalculator.calculate, h, List.map_replicate]

/-- Witness for C2 amended, at the concrete 5-candle window. -/
theorem C2_short_window_witness :
    (List.replicate 5 cCandle).length < 15 ∧
    RSICalculator.calculate (List.replicate 5 cCandle) =
      List.replicate (List.replicate 5 cCandle).length 0 ∧
    MACDCalculator.calculate (List.replicate 5 cCandle) =
      { macd := List.replicate (List.replicate 5 cCandle).length 0
        signal := List.replicate (List.replicate 5 cCandle).length (some 0)
        histogram := List.replicate (List.replicate 5 cCandle).length 0 } :=
  ⟨by simp, C2_short_window_zero_fill.1 _ (by simp), C2_short_window_zero_fill.2 _ (by simp)⟩

/-! ## C7 — profit factor -/

/-- C7 counterexample: a run with one winning trade and no losing trades
reports profit factor 0 (gross profit 10, gross loss 0), although the
claim says 0 occurs exactly when there are no losses and no profit. -/
theorem C7_profit_factor_counterexample :
    (calcMetrics [winTrade] 10000 10010).profit_factor = 0 ∧
    grossProfit [winTrade] = 10 ∧ grossLoss [winTrade] = 0 ∧ winTrade.pnl > 0 := by
  refine ⟨?_, ?_, ?_, ?_⟩ <;>
    norm_num [calcMetrics, grossProfit, grossLoss, emptyMetrics, winTrade]

/-- C7 amended: for a nonempty trade list, the reported profit factor is
`round2 |gross profit / gross loss|` when both the gross loss and the
gross profit are nonzero, and 0 exactly when the gross loss is zero or
the gross profit is zero — in particular a run with winning trades and
no losing trades reports profit factor 0. -/
theorem C7_profit_factor_amended (trades : List Backtester.TradeRec) (ic fb : ℚ)
    (h : trades ≠ []) :
    ((grossLoss trades ≠ 0 ∧ grossProfit trades ≠ 0) →
      (calcMetrics trades ic fb).profit_factor =
        roundTo 2 |grossProfit trades / grossLoss trades|) ∧
    ((grossLoss trades = 0 ∨ grossProfit trades = 0) →
      (calcMetrics trades ic fb).profit_factor = 0) := by
  constructor
  · rintro ⟨hl, hp⟩
    have hpf : |grossProfit trades / grossLoss trades| > 0 :=
      abs_pos.mpr (div_ne_zero hp hl)
    simp only [calcMetrics, if_neg h, if_pos hl, if_pos hpf]
  · intro hcase
    rcases hcase with hl0 | hp0
    · have : ¬ grossLoss trades ≠ 0 := fun hc => hc hl0
      simp only [calcMetrics, if_neg h, if_neg this]
      norm_num
    · by_cases hl : grossLoss trades ≠ 0
      · have : |grossProfit trades / grossLoss trades| = 0 := by
          rw [hp0, zero_div, abs_zero]
        simp only [calcMetrics, if_neg h, if_pos hl, this]
        norm_num
      · simp only [calcMetrics, if_neg h, if_neg hl]
        norm_num

/-- Witness for C7 amended, at the single winning trade. -/
theorem C7_profit_factor_witness :
    (calcMetrics [winTrade] 10000 10010).profit_factor = 0 :=
  (C7_profit_factor_amended [winTrade] 10000 10010 (by simp)).2
    (Or.inl (by norm_num [grossLoss, winTrade]))

/-! ## C3 — slippage and spread in the backtest exits -/

/-- C3 counterexample: a BUY stop-loss exit with positive slippage fills
at `SL + slippage·pip = 1.0901`, strictly above the nominal SL 1.09, and
its pnl (−1040) is strictly better than the nominal SL fill's (−1050):
the slippage reduces the loss instead of adding to it. -/
theorem C3_sl_slippage_counterexample :
    (Backtester.checkExit posB candleLow siA 1 1 (1 / 10000)).map
        (fun tr => (tr.exit_reason, tr.exit_price, tr.pnl)) =
      some ("SL_HIT", 10901 / 10000, -1040) ∧
    posB.stop_loss < 10901 / 10000 ∧
    (Backtester.closePosition posB candleLow "SL_HIT" siA (1 / 10000)
        (some posB.stop_loss)).pnl = -1050 ∧
    (-1050 : ℚ) < -1040 := by
  refine ⟨?_, by norm_num [posB], ?_, by norm_num⟩
  · norm_num [Backtester.checkExit, Backtester.closePosition, Backtester.tradeContext,
      posB, candleLow, siA]
  · norm_num [Backtester.closePosition, Backtester.tradeContext, posB, candleLow, siA]

/-- C3 amended: with positive slippage, every stop-loss exit fills offset
from the SL level toward the entry side (above the SL for a BUY, below it
for a SELL) — reducing the loss relative to a nominal SL fill — and every
take-profit exit fills toward the entry side of the TP (reducing the
gain); the exit check never reads the spread, which is applied on entry
only. -/
theorem C3_exit_slippage_amended (pos : Backtester.Position) (candle : Candle)
    (si : SymbolInfo) (slip sp pip : ℚ) (hs : 0 < slip) (hp : 0 < pip) :
    (∀ tr, Backtester.checkExit pos candle si slip sp pip = some tr →
      ((tr.exit_reason = "SL_HIT" ∧ pos.direction = "BUY") →
        tr.exit_price = pos.stop_loss + slip * pip ∧ pos.stop_loss < tr.exit_price) ∧
      ((tr.exit_reason = "SL_HIT" ∧ pos.direction ≠ "BUY") →
        tr.exit_price = pos.stop_loss - slip * pip ∧ tr.exit_price < pos.stop_loss) ∧
      ((tr.exit_reason = "TP_HIT" ∧ pos.direction = "BUY") →
        tr.exit_price = pos.take_profit - slip * pip ∧ tr.exit_price < pos.take_profit) ∧
      ((tr.exit_reason = "TP_HIT" ∧ pos.direction ≠ "BUY") →
        tr.exit_price = pos.take_profit + slip * pip ∧ pos.take_profit < tr.exit_price)) ∧
    (∀ sp2, Backtester.checkExit pos candle si slip sp pip =
        Backtester.checkExit pos candle si slip sp2 pip) ∧
    (0 ≤ pos.lot_size → 0 ≤ si.trade_tick_value / si.trade_tick_size →
      ∀ tr, Backtester.checkExit pos candle si slip sp pip = some tr →
        tr.exit_reason = "SL_HIT" →
        (Backtester.closePosition pos candle "SL_HIT" si pip (some pos.stop_loss)).pnl
          ≤ tr.pnl) := by
  have hps : 0 < slip * pip := mul_pos hs hp
  refine ⟨?_, ?_, ?_⟩
  · intro tr htr
    unfold Backtester.checkExit at htr
    by_cases hd : pos.direction = "BUY"
    · rw [if_pos hd] at htr
      by_cases hlo : candle.low ≤ pos.stop_loss
      · rw [if_pos hlo, Option.some_inj] at htr
        subst htr
        simp only [Backtester.closePosition, Option.getD_some]
        refine ⟨fun _ => ⟨by trivial, by linarith⟩, fun h => absurd hd h.2, fun h => ?_,
          fun h => ?_⟩
        · exact absurd h.1 (by simp)
        · exact absurd h.1 (by simp)
      · rw [if_neg hlo] at htr
        by_cases hhi : candle.high ≥ pos.take_profit
        · rw [if_pos hhi, Option.some_inj] at htr
          subst htr
          simp only [Backtester.closePosition, Option.getD_some]
          refine ⟨fun h => ?_, fun h => ?_, fun _ => ⟨by trivial, by linarith⟩,
            fun h => absurd hd h.2⟩
          · exact absurd h.1 (by simp)
          · exact absurd h.1 (by simp)
        · rw [if_neg hhi] at htr
          exact absurd htr (by simp)
    · rw [if_neg hd] at htr
      by_cases hhi : candle.high ≥ pos.stop_loss
      · rw [if_pos hhi, Option.some_inj] at htr
        subst htr
        simp only [Backtester.closePosition, Option.getD_some]
        refine ⟨fun h => absurd h.2 hd, fun _ => ⟨by trivial, by linarith⟩,
          fun h => ?_, fun h => ?_⟩
        · exact absurd h.1 (by simp)
        · exact absurd h.1 (by simp)
      · rw [if_neg hhi] at htr
        by_cases hlo : candle.low ≤ pos.take_profit
        · rw [if_pos hlo, Option.some_inj] at htr
          subst htr
          simp only [Backtester.closePosition, Option.getD_some]
          refine ⟨fun h => ?_, fun h => ?_, fun h => absurd h.2 hd,
            fun _ => ⟨by trivial, by linarith⟩⟩
          · exact absurd h.1 (by simp)
          · exact absurd h.1 (by simp)
        · rw [if_neg hlo] at htr
          exact absurd htr (by simp)
  · intro sp2
    unfold Backtester.checkExit
    rfl
  · intro hlot hpv tr htr hsl
    set q := si.trade_tick_value / si.trade_tick_size with hq
    have hLq : 0 ≤ pos.lot_size * q := mul_nonneg hlot hpv
    have cancel : ∀ x : ℚ, x / pip * pos.lot_size * q * pip = x * (pos.lot_size * q) := by
      intro x
      field_simp
      ring
    unfold Backtester.checkExit at htr
    by_cases hd : pos.direction = "BUY"
    · rw [if_pos hd] at htr
      by_cases hlo : candle.low ≤ pos.stop_loss
      · rw [if_pos hlo, Option.some_inj] at htr
        subst htr
        simp only [Backtester.closePosition, Option.getD_some]
        rw [if_pos hd, if_pos hd, ← hq, cancel, cancel]
        apply mul_le_mul_of_nonneg_right ?_ hLq
        linarith
      · rw [if_neg hlo] at htr
        by_cases hhi : candle.high ≥ pos.take_profit
        · rw [if_pos hhi, Option.some_inj] at htr
          subst htr
          exact absurd hsl (by simp [Backtester.closePosition])
        · rw [if_neg hhi] at htr
          exact absurd htr (by simp)
    · rw [if_neg hd] at htr
      by_cases hhi : candle.high ≥ pos.stop_loss
      · rw [if_pos hhi, Option.some_inj] at htr
        subst htr
        simp only [Backtester.closePosition, Option.getD_some]
        rw [if_neg hd, if_neg hd, ← hq, cancel, cancel]
        apply mul_le_mul_of_nonneg_right ?_ hLq
        linarith
      · rw [if_neg hhi] at htr
        by_cases hlo : candle.low ≤ pos.take_profit
        · rw [if_pos hlo, Option.some_inj] at htr
          subst htr
          exact absurd hsl (by simp [Backtester.closePosition])
        · rw [if_neg hlo] at htr
          exact absurd htr (by simp)

/-- Witness for C3 amended: the exit check's result at a concrete BUY
position is unchanged when the spread parameter changes from 1 to 7
pips. -/
theorem C3_exit_slippage_witness :
    Backtester.checkExit posB candleLow siA 1 1 (1 / 10000) =
      Backtester.checkExit posB candleLow siA 1 7 (1 / 10000) :=
  (C3_exit_slippage_amended posB candleLow siA 1 1 (1 / 10000) (by norm_num)
    (by norm_num)).2.1 7

/-! ## C8 — confidence scaling of the effective risk percentage -/

/-- C8: without an explicit risk percentage the effective risk percent is
the level's base risk scaled by 1.2 (confidence ≥ 90), 1.0 (80-90),
0.8 (70-80) or 0.5 (below 70); a positive explicit risk percentage is
used unscaled; the setup's `confidence_adjusted_risk` field reports this
effective percentage (rounded to two decimals). -/
theorem C8_effective_risk (level : String) (conf : ℚ) :
    ((90 ≤ conf → RiskManager.effRiskPercent none level conf =
        (RiskManager.riskLevelSettings level).risk * (12 / 10)) ∧
      (80 ≤ conf → conf < 90 → RiskManager.effRiskPercent none level conf =
        (RiskManager.riskLevelSettings level).risk * 1) ∧
      (70 ≤ conf → conf < 80 → RiskManager.effRiskPercent none level conf =
        (RiskManager.riskLevelSettings level).risk * (8 / 10)) ∧
      (conf < 70 → RiskManager.effRiskPercent none level conf =
        (RiskManager.riskLevelSettings level).risk * (1 / 2))) ∧
    (∀ rp : ℚ, 0 < rp → RiskManager.effRiskPercent (some rp) level conf = rp) ∧
    (∀ (account : AccountInfo) (si : Option SymbolInfo) (sy : SymbolClass)
        (dir : String) (entry : ℚ) (sup res : Option ℚ) (rp cc : Option ℚ)
        (st : RiskManager.Setup),
      RiskManager.getOptimalSetup (some account) si sy dir entry sup res level rp conf cc
          = Except.ok st →
      st.confidence_adjusted_risk = roundTo 2 (RiskManager.effRiskPercent rp level conf)) := by
  refine ⟨⟨?_, ?_, ?_, ?_⟩, ?_, ?_⟩
  · intro h
    simp only [RiskManager.effRiskPercent, RiskManager.explicitRisk,
      RiskManager.confMultiplier, if_pos h]
  · intro h1 h2
    have n1 : ¬ conf ≥ 90 := by linarith
    have p1 : conf ≥ 80 := h1
    simp only [RiskManager.effRiskPercent, RiskManager.explicitRisk,
      RiskManager.confMultiplier, if_neg n1, if_pos p1]
  · intro h1 h2
    have n1 : ¬ conf ≥ 90 := by linarith
    have n2 : ¬ conf ≥ 80 := by linarith
    have p1 : conf ≥ 70 := h1
    simp only [RiskManager.effRiskPercent, RiskManager.explicitRisk,
      RiskManager.confMultiplier, if_neg n1, if_neg n2, if_pos p1]
  · intro h
    have n1 : ¬ conf ≥ 90 := by linarith
    have n2 : ¬ conf ≥ 80 := by linarith
    have n3 : ¬ conf ≥ 70 := by linarith
    simp only [RiskManager.effRiskPercent, RiskManager.explicitRisk,
      RiskManager.confMultiplier, if_neg n1, if_neg n2, if_neg n3]
  · intro rp hrp
    simp only [RiskManager.effRiskPercent, RiskManager.explicitRisk, if_pos hrp]
  · intro account si sy dir entry sup res rp cc st hst
    simp only [RiskManager.getOptimalSetup, Except.ok.injEq] at hst
    subst hst
    rfl

/-- Witness for C8, at the moderate level with confidence 85: base risk 1
is used with multiplier 1.0, and an explicit 3% is passed through
unscaled. -/
theorem C8_effective_risk_witness :
    RiskManager.effRiskPercent none "moderate" 85 =
      (RiskManager.riskLevelSettings "moderate").risk * 1 ∧
    RiskManager.effRiskPercent (some 3) "moderate" 85 = 3 := by
  constructor
  · exact (C8_effective_risk "moderate" 85).1.2.1 (by norm_num) (by norm_num)
  · exact (C8_effective_risk "moderate" 85).2.1 3 (by norm_num)

/-! ## C5 — stop/target ordering of the optimal setup -/

theorem rmPipSize_bounds (c : SymbolClass) :
    0 < RiskManager.rmPipSize c ∧ 1 / 10000 ≤ RiskManager.rmPipSize c := by
  cases c <;> norm_num [RiskManager.rmPipSize]

theorem rmDefaultSlPips_ge (c : SymbolClass) : 30 ≤ RiskManager.rmDefaultSlPips c := by
  cases c <;> norm_num [RiskManager.rmDefaultSlPips]

theorem minRR_ge_one (rp : Option ℚ) (level : String) :
    1 ≤ RiskManager.minRR rp level := by
  rcases rp with _ | r
  · unfold RiskManager.minRR RiskManager.explicitRisk RiskManager.riskLevelSettings
    split_ifs <;> norm_num
  · by_cases hr : 0 < r
    · norm_num [RiskManager.minRR, RiskManager.explicitRisk, hr]
    · simp only [RiskManager.minRR, RiskManager.explicitRisk, if_neg hr]
      unfold RiskManager.riskLevelSettings
      split_ifs <;> norm_num

theorem buySL_gap (entry : ℚ) (sup : Option ℚ) (pip dsl : ℚ)
    (hp : 0 < pip) (hd : 30 ≤ dsl) :
    10 * pip ≤ entry - RiskManager.buySL entry sup pip dsl := by
  have hdp : 30 * pip ≤ dsl * pip := mul_le_mul_of_nonneg_right hd hp.le
  rcases sup with _ | s
  · simp only [RiskManager.buySL, RiskManager.validBelow]
    split_ifs <;> first | nlinarith | (ring_nf; nlinarith)
  · by_cases hv : s ≠ 0 ∧ s < entry
    · simp only [RiskManager.buySL, RiskManager.validBelow, if_pos hv]
      split_ifs <;> first | nlinarith [hv.2] | (ring_nf; nlinarith [hv.2])
    · simp only [RiskManager.buySL, RiskManager.validBelow, if_neg hv]
      split_ifs <;> first | nlinarith | (ring_nf; nlinarith)

theorem sellSL_gap (entry : ℚ) (res : Option ℚ) (pip dsl : ℚ)
    (hp : 0 < pip) (hd : 30 ≤ dsl) :
    10 * pip ≤ RiskManager.sellSL entry res pip dsl - entry := by
  have hdp : 30 * pip ≤ dsl * pip := mul_le_mul_of_nonneg_right hd hp.le
  rcases res with _ | r
  · simp only [RiskManager.sellSL, RiskManager.validAbove]
    split_ifs <;> first | nlinarith | (ring_nf; nlinarith)
  · by_cases hv : r ≠ 0 ∧ r > entry
    · simp only [RiskManager.sellSL, RiskManager.validAbove, if_pos hv]
      split_ifs <;> first | nlinarith [hv.2] | (ring_nf; nlinarith [hv.2])
    · simp only [RiskManager.sellSL, RiskManager.validAbove, if_neg hv]
      split_ifs <;> first | nlinarith | (ring_nf; nlinarith)

theorem buyTP_gap (entry sl : ℚ) (res : Option ℚ) (pip minrr : ℚ)
    (hp : 0 < pip) (hr : 1 ≤ minrr) (hgap : 10 * pip ≤ entry - sl) :
    5 * pip ≤ RiskManager.buyTP entry sl res pip minrr - entry := by
  have habs : |entry - sl| = entry - sl := abs_of_nonneg (by nlinarith)
  have hrisk : 0 < entry - sl := by nlinarith
  have hmm : (entry - sl) * 1 ≤ (entry - sl) * minrr :=
    mul_le_mul_of_nonneg_left hr hrisk.le
  rcases res with _ | r
  · simp only [RiskManager.buyTP, RiskManager.validAbove, habs]
    split_ifs <;> first | nlinarith | (ring_nf; nlinarith)
  · by_cases hval : r ≠ 0 ∧ r > entry
    · simp only [RiskManager.buyTP, RiskManager.validAbove, habs, if_pos hval]
      by_cases hlt : r < entry + (entry - sl) * minrr
      · rw [if_pos hlt]
        by_cases hrr : (if entry - sl > 0 then (r - entry) / (entry - sl) else 0) ≥ 1
        · rw [if_pos hrr]
          rw [if_pos hrisk, ge_iff_le, le_div_iff hrisk, one_mul] at hrr
          split_ifs <;> first | nlinarith | (ring_nf; nlinarith)
        · rw [if_neg hrr]
          split_ifs <;> first | nlinarith | (ring_nf; nlinarith)
      · rw [if_neg hlt]
        split_ifs <;> first | nlinarith | (ring_nf; nlinarith)
    · simp only [RiskManager.buyTP, RiskManager.validAbove, habs, if_neg hval]
      split_ifs <;> first | nlinarith | (ring_nf; nlinarith)

theorem sellTP_gap (entry sl : ℚ) (sup : Option ℚ) (pip minrr : ℚ)
    (hp : 0 < pip) (hr : 1 ≤ minrr) (hgap : 10 * pip ≤ sl - entry) :
    5 * pip ≤ entry - RiskManager.sellTP entry sl sup pip minrr := by
  have habs : |entry - sl| = sl - entry := by
    rw [abs_sub_comm]
    exact abs_of_nonneg (by nlinarith)
  have hrisk : 0 < sl - entry := by nlinarith
  have hmm : (sl - entry) * 1 ≤ (sl - entry) * minrr :=
    mul_le_mul_of_nonneg_left hr hrisk.le
  rcases sup with _ | s
  · simp only [RiskManager.sellTP, RiskManager.validBelow, habs]
    split_ifs <;> first | nlinarith | (ring_nf; nlinarith)
  · by_cases hval : s ≠ 0 ∧ s < entry
    · simp only [RiskManager.sellTP, RiskManager.validBelow, habs, if_pos hval]
      by_cases hgt : s > entry - (sl - entry) * minrr
      · rw [if_pos hgt]
        by_cases hrr : (if sl - entry > 0 then (entry - s) / (sl - entry) else 0) ≥ 1
        · rw [if_pos hrr]
          rw [if_pos hrisk, ge_iff_le, le_div_iff hrisk, one_mul] at hrr
          split_ifs <;> first | nlinarith | (ring_nf; nlinarith)
        · rw [if_neg hrr]
          split_ifs <;> first | nlinarith | (ring_nf; nlinarith)
      · rw [if_neg hgt]
        split_ifs <;> first | nlinarith | (ring_nf; nlinarith)
    · simp only [RiskManager.sellTP, RiskManager.validBelow, habs, if_neg hval]
      split_ifs <;> first | nlinarith | (ring_nf; nlinarith)

/-- C5: every setup the calculator returns satisfies
`stop_loss < entry < take_profit` for a BUY and
`take_profit < entry < stop_loss` otherwise (the SELL branch), for any
entry price, any optional support/resistance levels, any symbol class and
any risk configuration. -/
theorem C5_setup_ordering (account : AccountInfo) (si : Option SymbolInfo)
    (sy : SymbolClass) (direction : String) (entry : ℚ) (sup res : Option ℚ)
    (level : String) (rp : Option ℚ) (conf : ℚ) (cc : Option ℚ)
    (st : RiskManager.Setup)
    (hst : RiskManager.getOptimalSetup (some account) si sy direction entry sup res
        level rp conf cc = Except.ok st) :
    (pyUpper direction = "BUY" → st.stop_loss < st.entry ∧ st.entry < st.take_profit) ∧
    (pyUpper direction ≠ "BUY" → st.take_profit < st.entry ∧ st.entry < st.stop_loss) := by
  obtain ⟨hp, hp4⟩ := rmPipSize_bounds sy
  have hd := rmDefaultSlPips_ge sy
  have hrr := minRR_ge_one rp level
  simp only [RiskManager.getOptimalSetup, Except.ok.injEq] at hst
  subst hst
  constructor
  · intro hbuy
    simp only [if_pos hbuy]
    have hsl := buySL_gap entry sup (RiskManager.rmPipSize sy)
      (RiskManager.rmDefaultSlPips sy) hp hd
    have htp := buyTP_gap entry
      (RiskManager.buySL entry sup (RiskManager.rmPipSize sy) (RiskManager.rmDefaultSlPips sy))
      res (RiskManager.rmPipSize sy) (RiskManager.minRR rp level) hp hrr hsl
    constructor
    · exact roundTo_strict 5 (by nlinarith)
    · exact roundTo_strict 5 (by nlinarith)
  · intro hsell
    simp only [if_neg hsell]
    have hsl := sellSL_gap entry res (RiskManager.rmPipSize sy)
      (RiskManager.rmDefaultSlPips sy) hp hd
    have htp := sellTP_gap entry
      (RiskManager.sellSL entry res (RiskManager.rmPipSize sy) (RiskManager.rmDefaultSlPips sy))
      sup (RiskManager.rmPipSize sy) (RiskManager.minRR rp level) hp hrr hsl
    constructor
    · exact roundTo_strict 5 (by nlinarith)
    · exact roundTo_strict 5 (by nlinarith)

/-- Witness for C5: a concrete BUY setup on a major pair at entry 2. -/
theorem C5_setup_ordering_witness :
    ∃ st, RiskManager.getOptimalSetup (some acctA) (some siA) SymbolClass.major "BUY" 2
        none none "moderate" none 80 none = Except.ok st ∧
      st.stop_loss < st.entry ∧ st.entry < st.take_profit := by
  refine ⟨_, rfl, ?_⟩
  exact (C5_setup_ordering acctA (some siA) SymbolClass.major "BUY" 2 none none
    "moderate" none 80 none _ rfl).1 (by decide)

/-! ## C6 — per-extractor exception handling in `analyze` -/

/-- C6 counterexample: an exception raised inside the (unwrapped) core
technical-analysis call aborts the whole `analyze` call on a 50-candle
environment, instead of degrading one category and completing. -/
theorem C6_tech_abort_counterexample :
    GeniusAI.analyzeWith (Except.error "exception in _technical_analysis")
        (mkEnvA conn50) "moderate" none none =
      Except.error "exception in _technical_analysis" := by
  simp [GeniusAI.analyzeWith, mkEnvA, conn50]

/-- Helper: on a ≥ 50-candle environment the signal field of a successful
`analyzeWith` run is exactly `calculateSignal` applied to the degraded
extractor views, whatever the setup step does. -/
theorem analyzeWith_signal_proj (tech : GeniusAI.TechAnalysis) (env : Env) (rl : String)
    (cc rp : Option ℚ) (h : ¬ env.connCandles.length < 50) :
    (GeniusAI.analyzeWith (Except.ok tech) env rl cc rp).map (fun r => r.signal) =
      Except.ok (GeniusAI.calculateSignal tech
        (match env.patR with
          | Except.ok p =>
            some { bullish := p.bullish, bearish := p.bearish
                   total_bullish_strength := (p.bullish.map (fun q => q.strength)).sum
                   total_bearish_strength := (p.bearish.map (fun q => q.strength)).sum }
          | Except.error _ => none)
        (match env.mtfSessR with
          | Except.ok r => some r.1
          | Except.error _ => none)
        (match env.mtfSessR with
          | Except.ok r => some r.2
          | Except.error _ => none)
        (match env.advR with
          | Except.ok o => o
          | Except.error _ => some GeniusAI.emptyAdv)
        (match env.smcR with
          | Except.ok s => some s
          | Except.error _ => none)
        (match env.volR with
          | Except.ok v => some v
          | Except.error _ => none)) := by
  simp only [GeniusAI.analyzeWith, if_neg h]
  cases hm : env.mtfSessR <;>
    (dsimp only; split <;> (try split) <;> simp_all [Except.map])

/-- C6 amended: when the core technical-analysis call succeeds, `analyze`
always completes (never propagates an exception), whatever the six
wrapped extractor calls do; a failing wrapped extractor affects the
emitted signal exactly as its degraded default does (patterns → empty,
MTF + session → neutral trend with multiplier 1, smart money / volume →
absent score, market structure → no effect at all, advanced indicators →
the all-`None` error dict).  Only an exception in the unwrapped core
technical-analysis call aborts the analysis. -/
theorem C6_extractor_degradation_amended :
    (∀ (tech : GeniusAI.TechAnalysis) (env : Env) (rl : String) (cc rp : Option ℚ),
      (GeniusAI.analyzeWith (Except.ok tech) env rl cc rp).isOk = true) ∧
    (∀ (tech : GeniusAI.TechAnalysis) (env : Env) (rl : String) (cc rp : Option ℚ)
        (e : PyErr),
      (GeniusAI.analyzeWith (Except.ok tech) { env with patR := Except.error e } rl cc rp).map
          (fun r => r.signal) =
        (GeniusAI.analyzeWith (Except.ok tech)
          { env with patR := Except.ok { bullish := [], bearish := [] } } rl cc rp).map
          (fun r => r.signal)) ∧
    (∀ (tech : GeniusAI.TechAnalysis) (env : Env) (rl : String) (cc rp : Option ℚ)
        (e : PyErr),
      (GeniusAI.analyzeWith (Except.ok tech) { env with mtfSessR := Except.error e } rl cc rp).map
          (fun r => r.signal) =
        (GeniusAI.analyzeWith (Except.ok tech)
          { env with mtfSessR := Except.ok (⟨"NEUTRAL", 0⟩, ⟨"MEDIUM"⟩) } rl cc rp).map
          (fun r => r.signal)) ∧
    (∀ (tech : GeniusAI.TechAnalysis) (env : Env) (rl : String) (cc rp : Option ℚ)
        (e : PyErr),
      (GeniusAI.analyzeWith (Except.ok tech) { env with advR := Except.error e } rl cc rp).map
          (fun r => r.signal) =
        (GeniusAI.analyzeWith (Except.ok tech)
          { env with advR := Except.ok (some GeniusAI.emptyAdv) } rl cc rp).map
          (fun r => r.signal)) ∧
    (∀ (tech : GeniusAI.TechAnalysis) (env : Env) (rl : String) (cc rp : Option ℚ)
        (e : PyErr),
      (GeniusAI.analyzeWith (Except.ok tech) { env with smcR := Except.error e } rl cc rp).map
          (fun r => r.signal) =
        (GeniusAI.analyzeWith (Except.ok tech)
          { env with smcR := Except.ok { score := none } } rl cc rp).map
          (fun r => r.signal)) ∧
    (∀ (tech : GeniusAI.TechAnalysis) (env : Env) (rl : String) (cc rp : Option ℚ)
        (r1 r2 : Except PyErr Unit),
      (GeniusAI.analyzeWith (Except.ok tech) { env with mktR := r1 } rl cc rp).map
          (fun r => r.signal) =
        (GeniusAI.analyzeWith (Except.ok tech) { env with mktR := r2 } rl cc rp).map
          (fun r => r.signal)) ∧
    (∀ (tech : GeniusAI.TechAnalysis) (env : Env) (rl : String) (cc rp : Option ℚ)
        (e : PyErr),
      (GeniusAI.analyzeWith (Except.ok tech) { env with volR := Except.error e } rl cc rp).map
          (fun r => r.signal) =
        (GeniusAI.analyzeWith (Except.ok tech)
          { env with volR := Except.ok { score := none } } rl cc rp).map
          (fun r => r.signal)) := by
  refine ⟨?_, ?_, ?_, ?_, ?_, ?_, ?_⟩
  · intro tech env rl cc rp
    by_cases hlen : env.connCandles.length < 50
    · simp [GeniusAI.analyzeWith, hlen, Except.isOk, Except.toBool]
    · simp only [GeniusAI.analyzeWith, if_neg hlen]
      split <;> try split
      all_goals simp [Except.isOk, Except.toBool]
  · intro tech env rl cc rp e
    by_cases hlen : env.connCandles.length < 50
    · simp [GeniusAI.analyzeWith, hlen]
    · have h1 : ¬ ({ env with patR := Except.error e } : Env).connCandles.length < 50 := hlen
      have h2 : ¬ ({ env with
          patR := Except.ok { bullish := [], bearish := [] } } : Env).connCandles.length < 50 :=
        hlen
      rw [analyzeWith_signal_proj tech _ rl cc rp h1,
        analyzeWith_signal_proj tech _ rl cc rp h2]
      simp [GeniusAI.calculateSignal, GeniusAI.patCategory]
  · intro tech env rl cc rp e
    by_cases hlen : env.connCandles.length < 50
    · simp [GeniusAI.analyzeWith, hlen]
    · have h1 : ¬ ({ env with mtfSessR := Except.error e } : Env).connCandles.length < 50 := hlen
      have h2 : ¬ ({ env with
          mtfSessR := Except.ok (⟨"NEUTRAL", 0⟩, ⟨"MEDIUM"⟩) } : Env).connCandles.length < 50 :=
        hlen
      rw [analyzeWith_signal_proj tech _ rl cc rp h1,
        analyzeWith_signal_proj tech _ rl cc rp h2]
      simp [GeniusAI.calculateSignal, GeniusAI.mtfCategory, GeniusAI.sessionCategory]
  · intro tech env rl cc rp e
    by_cases hlen : env.connCandles.length < 50
    · simp [GeniusAI.analyzeWith, hlen]
    · have h1 : ¬ ({ env with advR := Except.error e } : Env).connCandles.length < 50 := hlen
      have h2 : ¬ ({ env with
          advR := Except.ok (some GeniusAI.emptyAdv) } : Env).connCandles.length < 50 := hlen
      rw [analyzeWith_signal_proj tech _ rl cc rp h1,
        analyzeWith_signal_proj tech _ rl cc rp h2]
  · intro tech env rl cc rp e
    by_cases hlen : env.connCandles.length < 50
    · simp [GeniusAI.analyzeWith, hlen]
    · have h1 : ¬ ({ env with smcR := Except.error e } : Env).connCandles.length < 50 := hlen
      have h2 : ¬ ({ env with
          smcR := Except.ok { score := none } } : Env).connCandles.length < 50 := hlen
      rw [analyzeWith_signal_proj tech _ rl cc rp h1,
        analyzeWith_signal_proj tech _ rl cc rp h2]
      simp [GeniusAI.calculateSignal, GeniusAI.smcCategory]
  · intro tech env rl cc rp r1 r2
    by_cases hlen : env.connCandles.length < 50
    · simp [GeniusAI.analyzeWith, hlen]
    · have h1 : ¬ ({ env with mktR := r1 } : Env).connCandles.length < 50 := hlen
      have h2 : ¬ ({ env with mktR := r2 } : Env).connCandles.length < 50 := hlen
      rw [analyzeWith_signal_proj tech _ rl cc rp h1,
        analyzeWith_signal_proj tech _ rl cc rp h2]
  · intro tech env rl cc rp e
    by_cases hlen : env.connCandles.length < 50
    · simp [GeniusAI.analyzeWith, hlen]
    · have h1 : ¬ ({ env with volR := Except.error e } : Env).connCandles.length < 50 := hlen
      have h2 : ¬ ({ env with
          volR := Except.ok { score := none } } : Env).connCandles.length < 50 := hlen
      rw [analyzeWith_signal_proj tech _ rl cc rp h1,
        analyzeWith_signal_proj tech _ rl cc rp h2]
      simp [GeniusAI.calculateSignal, GeniusAI.volCategory]

/-- Witness for C6 amended: completion and the smart-money degradation at
the concrete bullish environment. -/
theorem C6_extractor_witness :
    (GeniusAI.analyzeWith (Except.ok (GeniusAI.technicalAnalysis conn50)) (mkEnvA conn50)
        "moderate" none none).isOk = true ∧
    (GeniusAI.analyzeWith (Except.ok (GeniusAI.technicalAnalysis conn50))
        { mkEnvA conn50 with smcR := Except.error "smc boom" } "moderate" none none).map
        (fun r => r.signal) =
      (GeniusAI.analyzeWith (Except.ok (GeniusAI.technicalAnalysis conn50))
        { mkEnvA conn50 with smcR := Except.ok { score := none } } "moderate" none none).map
        (fun r => r.signal) :=
  ⟨C6_extractor_degradation_amended.1 (GeniusAI.technicalAnalysis conn50) (mkEnvA conn50)
      "moderate" none none,
    C6_extractor_degradation_amended.2.2.2.2.1 (GeniusAI.technicalAnalysis conn50)
      (mkEnvA conn50) "moderate" none none "smc boom"⟩

/-! ## C9 — safety cap on the number of trades -/

/-- Helper invariant for the candle loop: entering an iteration with
fewer than `max_trades` closed trades, the loop never exceeds the cap,
and whenever it leaves a position open it is still strictly below the
cap (the safety break only fires right after a close, which also clears
the open position). -/
theorem runLoop_trades_bound (env : Env) (cfg : Backtester.BtConfig) (si : SymbolInfo)
    (p : ℚ) :
    ∀ (rest past : List Candle) (st : Backtester.SimState),
      st.trades.length < Backtester.maxTrades →
      (Backtester.runLoop env cfg si p past rest st).trades.length ≤ Backtester.maxTrades ∧
        ((Backtester.runLoop env cfg si p past rest st).openPos.isSome = true →
          (Backtester.runLoop env cfg si p past rest st).trades.length <
            Backtester.maxTrades) := by
  intro rest
  induction rest with
  | nil =>
    intro past st h
    simp only [Backtester.runLoop]
    exact ⟨h.le, fun _ => h⟩
  | cons c rest ih =>
    intro past st h
    simp only [Backtester.runLoop]
    cases hop : st.openPos with
    | none =>
      dsimp only
      cases hsig : Backtester.generateSignal env cfg.strategy (past ++ [c]) c cfg.risk_level
          cfg.risk_percentage with
      | some sig => exact ih (past ++ [c]) _ h
      | none => exact ih (past ++ [c]) st h
    | some pos =>
      dsimp only
      cases hex : Backtester.checkExit pos c si cfg.slippage_pips cfg.spread_pips p with
      | none => exact ih (past ++ [c]) st h
      | some trade =>
        dsimp only
        by_cases hmax : Backtester.maxTrades ≤ (st.trades ++ [trade]).length
        · rw [if_pos hmax]
          refine ⟨?_, ?_⟩
          · simp only [List.length_append, List.length_cons, List.length_nil]
            omega
          · intro hs
            simp at hs
        · rw [if_neg hmax]
          exact ih (past ++ [c]) _ (Nat.lt_of_not_le hmax)

/-- C9: every successful backtest run, over any candle series,
configuration and environment, produces at most `max_trades = 1000`
trade records, the forced final TIMEOUT close included. -/
theorem C9_trade_cap (env : Env) (cfg : Backtester.BtConfig) (cs : List Candle)
    (res : List Backtester.TradeRec × Metrics × ℚ)
    (h : Backtester.runBacktest env cfg cs = Except.ok res) :
    res.1.length ≤ Backtester.maxTrades := by
  unfold Backtester.runBacktest at h
  by_cases hlen : cs.length < Backtester.minCandles
  · rw [if_pos hlen] at h
    exact absurd h (by simp)
  · rw [if_neg hlen] at h
    cases hsi : env.symbolInfo with
    | none =>
      rw [hsi] at h
      exact absurd h (by simp)
    | some si =>
      rw [hsi] at h
      dsimp only at h
      obtain ⟨hle, hopen⟩ :=
        runLoop_trades_bound env cfg si (Backtester.btPipSize env.symClass) cs []
          { balance := cfg.initial_capital, trades := [], openPos := none }
          (by simp [Backtester.maxTrades])
      set final := Backtester.runLoop env cfg si (Backtester.btPipSize env.symClass) [] cs
        { balance := cfg.initial_capital, trades := [], openPos := none } with hfinal
      cases hop : final.openPos with
      | some pos =>
        cases hlast : cs.getLast? with
        | some lc =>
          rw [hop, hlast] at h
          dsimp only at h
          simp only [Except.ok.injEq] at h
          subst h
          have hlt := hopen (by rw [hop]; rfl)
          simp only [List.length_append, List.length_cons, List.length_nil]
          omega
        | none =>
          rw [hop, hlast] at h
          dsimp only at h
          simp only [Except.ok.injEq] at h
          subst h
          exact hle
      | none =>
        cases hlast : cs.getLast? with
        | some lc =>
          rw [hop, hlast] at h
          dsimp only at h
          simp only [Except.ok.injEq] at h
          subst h
          exact hle
        | none =>
          rw [hop, hlast] at h
          dsimp only at h
          simp only [Except.ok.injEq] at h
          subst h
          exact hle

/-- Helper: with the non-GENIUS_AI strategy fixture no signal is ever
generated, so the candle loop is a no-op from an all-flat state. -/
theorem runLoop_custom (env : Env) (si : SymbolInfo) (p : ℚ) :
    ∀ (rest past : List Candle) (bal : ℚ),
      Backtester.runLoop env cfgCustom si p past rest
          { balance := bal, trades := [], openPos := none } =
        { balance := bal, trades := [], openPos := none } := by
  intro rest
  induction rest with
  | nil =>
    intro past bal
    simp only [Backtester.runLoop]
  | cons c rest ih =>
    intro past bal
    simp only [Backtester.runLoop]
    have hsig : Backtester.generateSignal env cfgCustom.strategy (past ++ [c]) c
        cfgCustom.risk_level cfgCustom.risk_percentage = none := by
      simp [Backtester.generateSignal, cfgCustom]
    rw [hsig]
    exact ih (past ++ [c]) bal

/-- Witness for C9 at the 100-flat-candle, signal-free configuration:
the run succeeds with an empty trade list, below the cap. -/
theorem C9_trade_cap_witness :
    ([] : List Backtester.TradeRec).length ≤ Backtester.maxTrades :=
  C9_trade_cap envNoData cfgCustom candles100
    ([], calcMetrics [] 10000 10000, 10000)
    (by
      have hsym : envNoData.symbolInfo = some siA := rfl
      have hlen100 : ¬ candles100.length < Backtester.minCandles := by
        simp [candles100, Backtester.minCandles]
      have hloop := runLoop_custom envNoData siA
        (Backtester.btPipSize envNoData.symClass) candles100 [] cfgCustom.initial_capital
      unfold Backtester.runBacktest
      rw [if_neg hlen100, hsym]
      dsimp only
      rw [hloop]
      rfl)

/-! ## C1 — lookahead: the per-index candle slice vs the live fetch -/

/-- Helper bounds for the technical category with absent advanced
indicators: the bullish percentage is nonnegative and the bearish one is
at most 100, for every technical-analysis outcome. -/
theorem techCategory_none_bounds (tech : GeniusAI.TechAnalysis) :
    0 ≤ (GeniusAI.techCategory tech none).1 ∧ (GeniusAI.techCategory tech none).2.1 ≤ 100 := by
  unfold GeniusAI.techCategory
  dsimp only
  constructor
  · apply le_min (by norm_num)
    apply mul_nonneg _ (by norm_num)
    apply div_nonneg _ (by norm_num)
    cases htd : tech.divergence with
    | none => split_ifs <;> norm_num
    | some side => cases side <;> split_ifs <;> norm_num
  · exact min_le_left _ _

/-- Helper: with the strongly bullish extractor fixtures (100-strength
pattern, aligned MTF, HIGH session, bullish smart-money and volume
scores, absent advanced indicators), the composite scorer emits a BUY
signal with confidence at least 70, whatever the technical analysis of
the candles returned. -/
theorem calculateSignal_bullish (tech : GeniusAI.TechAnalysis) :
    ∃ sig : GeniusAI.Signal,
      GeniusAI.calculateSignal tech
          (some { bullish := patA.bullish, bearish := patA.bearish
                  total_bullish_strength := (patA.bullish.map (fun q => q.strength)).sum
                  total_bearish_strength := (patA.bearish.map (fun q => q.strength)).sum })
          (some mtfSessA.1) (some mtfSessA.2) none
          (some { score := some scoreA }) (some { score := some scoreA }) = some sig ∧
        sig.direction = "BUY" ∧ 70 ≤ sig.confidence := by
  have hpat : GeniusAI.patCategory
      (some { bullish := patA.bullish, bearish := patA.bearish
              total_bullish_strength := (patA.bullish.map (fun q => q.strength)).sum
              total_bearish_strength := (patA.bearish.map (fun q => q.strength)).sum }) =
      (100, 0, [Reason.patternHit "P" 100]) := by
    norm_num [GeniusAI.patCategory, patA]
  have hmtf : GeniusAI.mtfCategory (some mtfSessA.1) =
      (100, 0, [Reason.mtfBullish 100]) := by
    norm_num [GeniusAI.mtfCategory, mtfSessA]
  have hsess : GeniusAI.sessionCategory (some mtfSessA.2) =
      (115 / 100, [Reason.sessionHigh]) := by
    norm_num [GeniusAI.sessionCategory, mtfSessA]
  have hsmc : GeniusAI.smcCategory (some { score := some scoreA }) = (100, 0, []) := by
    norm_num [GeniusAI.smcCategory, scoreA]
  have hvol : GeniusAI.volCategory (some { score := some scoreA }) = (100, 0, []) := by
    norm_num [GeniusAI.volCategory, scoreA]
  have hsr : GeniusAI.srCategory tech = (50, 50, []) := by
    norm_num [GeniusAI.srCategory]
  obtain ⟨htb, htB⟩ := techCategory_none_bounds tech
  simp only [GeniusAI.calculateSignal, hpat, hmtf, hsess, hsmc, hvol, hsr,
    GeniusAI.compositeDecision]
  set t1 := (GeniusAI.techCategory tech none).1 with ht1
  set t2 := (GeniusAI.techCategory tech none).2.1 with ht2
  set bull := GeniusAI.weightedScore 100 t1 100 100 100 50 (115 / 100) with hbdef
  set bear := GeniusAI.weightedScore 0 t2 0 0 0 50 (115 / 100) with hbrdef
  have hbull : (161 / 2 : ℚ) ≤ bull := by
    rw [hbdef]
    unfold GeniusAI.weightedScore
    linarith
  have hbear : bear ≤ 115 / 4 := by
    rw [hbrdef]
    unfold GeniusAI.weightedScore
    linarith
  have hgt : bear < bull := by linarith
  have h45 : bull ≥ 45 := by linarith
  have habs : |bull - bear| ≥ 10 := by
    rw [abs_of_nonneg (by linarith)]
    linarith
  rw [if_pos ⟨hgt, h45, habs⟩]
  refine ⟨_, rfl, rfl, ?_⟩
  show (70 : ℚ) ≤ roundTo 1 (min 95 bull)
  have h95 : (161 / 2 : ℚ) ≤ min 95 bull := le_min (by norm_num) hbull
  have hlt := lt_roundTo 1 (min 95 bull)
  have hden : (1 : ℚ) / (2 * 10 ^ 1) = 1 / 20 := by norm_num
  linarith

/-- Helper: with account info present, `get_optimal_setup` has no error
path — every call returns a setup dict. -/
theorem getOptimalSetup_some_ne_error (acct : AccountInfo) (si : Option SymbolInfo)
    (sc : SymbolClass) (dir : String) (entry : ℚ) (sup res : Option ℚ) (rl : String)
    (rp : Option ℚ) (conf : ℚ) (cc : Option ℚ) (e : String) :
    RiskManager.getOptimalSetup (some acct) si sc dir entry sup res rl rp conf cc ≠
      Except.error e := by
  unfold RiskManager.getOptimalSetup
  simp

/-- Helper: the backtester signal call on a bullish live environment
returns a signal for any slice of length at least 50 — the slice itself
never enters the computation beyond its length. -/
theorem generateSignal_live_isSome (cs slice : List Candle) (cur : Candle)
    (h1 : ¬ cs.length < 50) (h2 : ¬ slice.length < 50) :
    (Backtester.generateSignal (mkEnvA cs) "GENIUS_AI" slice cur
      "moderate" none).isSome = true := by
  obtain ⟨sig, hsig, hdir, hconf⟩ := calculateSignal_bullish (GeniusAI.technicalAnalysis cs)
  unfold Backtester.generateSignal
  rw [if_neg h2, if_pos rfl]
  simp only [GeniusAI.analyze, GeniusAI.analyzeWith, mkEnvA]
  rw [if_neg h1]
  rw [hsig]
  dsimp only [RiskManager.getOptimalSetup]
  rw [if_pos (show sig.confidence ≥ 70 from hconf)]
  rfl

/-- C1: the decision pipeline of the backtester ignores the content of
the candle slice it is handed (only its length is read: two slices of
equal length give identical outcomes on every environment and strategy),
while the live connector candles (fetched fresh by `analyze`, future
data included at backtest time) do change the decision: with identical
slice, index candle and configuration, a 50-candle live fetch produces a
signal that a 10-candle live fetch does not. -/
theorem C1_slice_ignored_live_fetch :
    (∀ (env : Env) (strategy : String) (p1 p2 : List Candle) (cur : Candle)
        (rl : String) (rp : Option ℚ),
      p1.length = p2.length →
      Backtester.generateSignal env strategy p1 cur rl rp =
        Backtester.generateSignal env strategy p2 cur rl rp) ∧
    (Backtester.generateSignal (mkEnvA conn50) "GENIUS_AI" conn50 cCandle
        "moderate" none).isSome = true ∧
    Backtester.generateSignal (mkEnvA conn10) "GENIUS_AI" conn50 cCandle
        "moderate" none = none := by
  refine ⟨?_, ?_, ?_⟩
  · intro env strategy p1 p2 cur rl rp hlen
    unfold Backtester.generateSignal
    rw [hlen]
  · exact generateSignal_live_isSome conn50 conn50 cCandle
      (by simp [conn50]) (by simp [conn50])
  · simp [Backtester.generateSignal, GeniusAI.analyze, GeniusAI.analyzeWith, mkEnvA,
      conn10, conn50]

/-- Witness for C1 at concrete inputs: two different 50-candle slices
give the same signal decision, and the bullish 50-candle live
environment does produce a signal. -/
theorem C1_slice_witness :
    Backtester.generateSignal envNoData "GENIUS_AI" conn50 cCandle "moderate" none =
      Backtester.generateSignal envNoData "GENIUS_AI" (List.replicate 50 candleLow) cCandle
        "moderate" none :=
  C1_slice_ignored_live_fetch.1 envNoData "GENIUS_AI" conn50 (List.replicate 50 candleLow)
    cCandle "moderate" none (by simp [conn50])

end AITrading
